import Mathlib

/-!
# Electric organ firmware (`src/ELT-23056/sysTeam.c`)

A shallow embedding of the recorder/player firmware.

* The C globals (`song`, `songLength`, `recording`, `playing`, `playCounter`,
  `timer`) and the I/O registers the program writes are the fields of `State`.
  Machine integers are `Nat`; every `++` carries its explicit wrap
  (`% 65536` for `uint16_t`, `% 256` for `uint8_t`).
* `song` is a map from index to byte.  Every access the engines make to
  `song` and every write to `PORTB` is also recorded in a list of `Access`
  events returned next to the new state, so that array bounds can be stated.
* The analog converter is the environment: a conversion result (the high byte
  `ADCH`) is an input `adc ch`, one per channel, and the registers of the
  converter (`ADMUX`, `ADCSRA`) are not part of `State`.
* `PIND` is an input: a stop poll gets the byte it reads, an edge handler gets
  the sequence of bytes its successive reads return.
* The program runs with interrupts enabled from line 80 on and never masks
  them, so a handler can be served between any two statements of `main`,
  also inside a call of `recordSelect` or `playSelect` made by `main`.  This
  is `mainStep` (one statement of the foreground at a time, with a program
  point `Pc`) and `PReachable`; the handlers themselves run to completion, as
  the hardware masks interrupts inside a handler.
* `Op` and `Reachable` are the coarser view in which each section of the
  foreground loop runs to completion before a handler is served: the runs
  without preemption inside a section.  `sampleTick`, `livePassthrough` and
  `stopPoll` are the uninterrupted runs of `mainStep` through a section.
* A statement `c ? x op= a : x op= b` is read with one assignment in each arm,
  the only reading under which the source compiles.
-/

namespace SysTeam

/-! ## Constants -/

/-- Capacity of the song buffer, `#define MAX_SONG_LENGTH 1400` (line 17). -/
def MAX_SONG_LENGTH : Nat := 1400

/-- Bit number of the play button line PD2 (`avr/io.h`; line 6 of the source). -/
def PORTD2 : Nat := 2

/-- Bit number of the record button line PD3 (`avr/io.h`; line 7 of the source). -/
def PORTD3 : Nat := 3

/-- Bit number of the stop button line PD4 (`avr/io.h`; line 8 of the source). -/
def PORTD4 : Nat := 4

/-! ## State -/

/-- Globals of the program (lines 20-25) and the registers it writes. -/
structure State where
  /-- The buffer `volatile uint8_t song[MAX_SONG_LENGTH]`, by index. -/
  song : Nat → Nat
  /-- The counter `volatile uint16_t songLength`. -/
  songLength : Nat
  /-- The flag `volatile uint8_t recording`. -/
  recording : Nat
  /-- The flag `volatile uint8_t playing`. -/
  playing : Nat
  /-- The cursor `volatile uint16_t playCounter`. -/
  playCounter : Nat
  /-- The overflow counter `volatile uint8_t timer`. -/
  timer : Nat
  /-- Data direction register of port B. -/
  DDRB : Nat
  /-- Data direction register of port C. -/
  DDRC : Nat
  /-- Data direction register of port D. -/
  DDRD : Nat
  /-- Output lines: bits 0-4 are the five key outputs. -/
  PORTB : Nat
  /-- Indicator lines: bit 2 is the record led, bit 3 the play led. -/
  PORTC : Nat
  /-- Timer 1 control register A. -/
  TCCR1A : Nat
  /-- Timer 1 control register B (clock select): 0 is stopped, 2 is clk/8. -/
  TCCR1B : Nat
  /-- Timer 1 interrupt mask. -/
  TIMSK1 : Nat
  /-- External interrupt sense control. -/
  EICRA : Nat
  /-- External interrupt mask. -/
  EIMSK : Nat

/-- One access of an engine to the song buffer or to the output port. -/
inductive Access where
  /-- A read of `song[i]`. -/
  | songRead (i : Nat)
  /-- The write `song[i] = v`. -/
  | songWrite (i v : Nat)
  /-- A write of `v` to `PORTB`. -/
  | portbWrite (v : Nat)
  deriving DecidableEq, Repr

/-- Mode Idle: neither flag is set. -/
def isIdle (s : State) : Prop := s.recording = 0 ∧ s.playing = 0

/-- Mode Recording: `recording` is 1 and `playing` is 0. -/
def isRecording (s : State) : Prop := s.recording = 1 ∧ s.playing = 0

/-- Mode Playing: `playing` is 1 and `recording` is 0. -/
def isPlaying (s : State) : Prop := s.recording = 0 ∧ s.playing = 1

instance (s : State) : Decidable (isIdle s) := by unfold isIdle; infer_instance
instance (s : State) : Decidable (isRecording s) := by unfold isRecording; infer_instance
instance (s : State) : Decidable (isPlaying s) := by unfold isPlaying; infer_instance

/-! ## Transport functions -/

/-- The function `initSystem` (lines 28-81).  `~(0x1c)` and `~(0x0c)` are the
8-bit masks `0xE3` and `0xF3`.  The converter set-up (lines 42-54) writes only
`ADCSRA` and `ADMUX`, which are outside `State`. -/
def initSystem (s : State) : State :=
  { s with
    DDRD := s.DDRD &&& 0xE3
    DDRB := s.DDRB ||| 0x1f
    DDRC := s.DDRC ||| 0x0c
    PORTC := s.PORTC &&& 0xF3
    TCCR1A := 0
    TCCR1B := 0
    TIMSK1 := 0x01
    EICRA := 0x05
    EIMSK := 0x03
    songLength := 0
    recording := 0
    playing := 0
    playCounter := 0
    timer := 0 }

/-- The function `recordSelect` (lines 84-108). -/
def recordSelect (s : State) : State :=
  if s.playing ≠ 0 then s
  else if s.recording = 0 then
    { s with
      recording := 1
      songLength := 0
      PORTC := s.PORTC ||| 0x04
      TCCR1B := 0x02 }
  else
    { s with
      recording := 0
      PORTC := s.PORTC &&& 0xFB
      TCCR1B := 0 }

/-- The function `playSelect` (lines 111-134). -/
def playSelect (s : State) : State :=
  if s.recording ≠ 0 then s
  else if s.playing = 0 then
    { s with
      playing := 1
      playCounter := 0
      PORTC := s.PORTC ||| 0x08
      TCCR1B := 0x02 }
  else
    { s with
      playing := 0
      PORTC := s.PORTC &&& 0xF7
      TCCR1B := 0 }

/-- The result of `readADC(ch)` (lines 137-173) when the conversion of channel
`ch` delivers the high byte `adc ch`: 1 is released, 0 is pressed. -/
def readADC (adc : Nat → Nat) (ch : Nat) : Nat :=
  if adc ch < 50 then 1 else 0

/-! ## Foreground loop -/

/-- The byte `row` built at lines 190-195 from the five conversions. -/
def scanRow (adc : Nat → Nat) : Nat :=
  let row := 0
  let row := if readADC adc 0 ≠ 0 then (row + 0) % 256 else (row + 1) % 256
  let row := if readADC adc 4 ≠ 0 then (row + 0) % 256 else (row + 2) % 256
  let row := if readADC adc 5 ≠ 0 then (row + 0) % 256 else (row + 4) % 256
  let row := if readADC adc 6 ≠ 0 then (row + 0) % 256 else (row + 8) % 256
  let row := if readADC adc 7 ≠ 0 then (row + 0) % 256 else (row + 16) % 256
  row

/-- The record branch of a sample tick (lines 182-198). -/
def recordEngine (adc : Nat → Nat) (s : State) : State × List Access :=
  if s.songLength = MAX_SONG_LENGTH then (recordSelect s, [])
  else
    let row := scanRow adc
    ({ s with
       song := Function.update s.song s.songLength row
       songLength := (s.songLength + 1) % 65536 },
     [Access.songWrite s.songLength row])

/-- One line of lines 210-214: the port after
`(b & (1 << k)) ? PORTB |= set : PORTB &= clr`. -/
def driveLine (b k set clr p : Nat) : Nat :=
  if b &&& (1 <<< k) ≠ 0 then p ||| set else p &&& clr

/-- The play branch of a sample tick (lines 201-216). -/
def playEngine (s : State) : State × List Access :=
  if s.songLength = 0 then (playSelect s, [])
  else if s.playCounter = s.songLength then ({ s with playCounter := 0 }, [])
  else
    let b := s.song s.playCounter
    let p0 := driveLine b 0 0x01 0xFE s.PORTB
    let p1 := driveLine b 1 0x02 0xFD p0
    let p2 := driveLine b 2 0x04 0xFB p1
    let p3 := driveLine b 3 0x08 0xF7 p2
    let p4 := driveLine b 4 0x10 0xEF p3
    ({ s with
       PORTB := p4
       playCounter := (s.playCounter + 1) % 65536 },
     [Access.songRead s.playCounter, Access.portbWrite p0,
      Access.songRead s.playCounter, Access.portbWrite p1,
      Access.songRead s.playCounter, Access.portbWrite p2,
      Access.songRead s.playCounter, Access.portbWrite p3,
      Access.songRead s.playCounter, Access.portbWrite p4])

/-- One sample tick: the body of `if (timer == 2)` (lines 180-217). -/
def sampleTick (adc : Nat → Nat) (s : State) : State × List Access :=
  let s1 := { s with timer := 0 }
  if s1.recording ≠ 0 then recordEngine adc s1
  else if s1.playing ≠ 0 then playEngine s1
  else (s1, [])

/-- The gate of lines 179-218: a sample tick when `timer == 2`. -/
def tickPoll (adc : Nat → Nat) (s : State) : State × List Access :=
  if s.timer = 2 then sampleTick adc s else (s, [])

/-- One line of lines 221-225: the port after
`(readADC(ch)) ? PORTB &= clr : PORTB |= set`. -/
def mirrorLine (adc : Nat → Nat) (ch set clr p : Nat) : Nat :=
  if readADC adc ch ≠ 0 then p &&& clr else p ||| set

/-- Live passthrough (lines 219-226). -/
def livePassthrough (adc : Nat → Nat) (s : State) : State × List Access :=
  if s.playing = 0 then
    let p0 := mirrorLine adc 0 0x01 0xFE s.PORTB
    let p1 := mirrorLine adc 4 0x02 0xFD p0
    let p2 := mirrorLine adc 5 0x04 0xFB p1
    let p3 := mirrorLine adc 6 0x08 0xF7 p2
    let p4 := mirrorLine adc 7 0x10 0xEF p3
    ({ s with PORTB := p4 },
     [Access.portbWrite p0, Access.portbWrite p1, Access.portbWrite p2,
      Access.portbWrite p3, Access.portbWrite p4])
  else (s, [])

/-- The stop poll (lines 227-234); `pind` is the byte read from `PIND`. -/
def stopPoll (pind : Nat) (s : State) : State :=
  if pind &&& (1 <<< PORTD4) ≠ 0 then
    if s.playing ≠ 0 then playSelect s
    else if s.recording ≠ 0 then recordSelect s
    else s
  else s

/-- One iteration of `while(1)` in `main` (lines 178-235) run without an
interrupt in between: `adcT` are the conversions of the tick, `adcL` those of
the passthrough, `pind` the byte read by the stop poll. -/
def mainIter (adcT adcL : Nat → Nat) (pind : Nat) (s : State) : State × List Access :=
  let r1 := tickPoll adcT s
  let r2 := livePassthrough adcL r1.1
  (stopPoll pind r2.1, r1.2 ++ r2.2)

/-! ## Interrupt handlers -/

/-- The loop `while ((PIND & mask) == 1);` of lines 243 and 252.  `pind k` is
the byte returned by the `k`-th read of `PIND`; the result is the number of
reads made when the loop ends, `none` when `fuel` reads did not end it. -/
def busyWait (mask : Nat) (pind : Nat → Nat) : Nat → Nat → Option Nat
  | 0, _ => none
  | fuel + 1, k =>
    if pind k &&& mask = 1 then busyWait mask pind fuel (k + 1) else some (k + 1)

/-- The handler `ISR (INT0_vect)` (lines 240-245).  Read 0 of `PIND` is the
one of the `if`, the following ones are those of the loop. -/
def INT0_vect (pind : Nat → Nat) (fuel : Nat) (s : State) : Option State :=
  if pind 0 &&& (1 <<< PORTD2) = 0 then
    let s1 := playSelect s
    match busyWait (1 <<< PORTD2) pind fuel 1 with
    | some _ => some s1
    | none => none
  else some s

/-- The handler `ISR (INT1_vect)` (lines 249-254). -/
def INT1_vect (pind : Nat → Nat) (fuel : Nat) (s : State) : Option State :=
  if pind 0 &&& (1 <<< PORTD3) = 0 then
    let s1 := recordSelect s
    match busyWait (1 <<< PORTD3) pind fuel 1 with
    | some _ => some s1
    | none => none
  else some s

/-- The handler `ISR (TIMER1_OVF_vect)` (lines 258-260). -/
def TIMER1_OVF_vect (s : State) : State :=
  { s with timer := (s.timer + 1) % 256 }

/-! ## Steps and reachable states -/

/-- The steps of a run in which no handler is served inside a section of the
foreground loop: each section, transport call and handler is one step. -/
inductive Op where
  /-- A call of `recordSelect` (a RecordEdge). -/
  | recordSelect
  /-- A call of `playSelect` (a PlayEdge). -/
  | playSelect
  /-- A sample tick with the given conversions. -/
  | sampleTick (adc : Nat → Nat)
  /-- The gated tick section of one foreground iteration. -/
  | tickPoll (adc : Nat → Nat)
  /-- The passthrough section of one foreground iteration. -/
  | livePassthrough (adc : Nat → Nat)
  /-- The stop poll of one foreground iteration. -/
  | stopPoll (pind : Nat)
  /-- A whole foreground iteration. -/
  | mainIter (adcT adcL : Nat → Nat) (pind : Nat)
  /-- A run of the play-edge handler. -/
  | int0 (pind : Nat → Nat) (fuel : Nat)
  /-- A run of the record-edge handler. -/
  | int1 (pind : Nat → Nat) (fuel : Nat)
  /-- A run of the timer-overflow handler. -/
  | timerOvf

/-- The state after a step run to completion with no handler served inside
it, `none` when a handler did not return. -/
def Op.apply : Op → State → Option State
  | .recordSelect, s => some (SysTeam.recordSelect s)
  | .playSelect, s => some (SysTeam.playSelect s)
  | .sampleTick adc, s => some (SysTeam.sampleTick adc s).1
  | .tickPoll adc, s => some (SysTeam.tickPoll adc s).1
  | .livePassthrough adc, s => some (SysTeam.livePassthrough adc s).1
  | .stopPoll pind, s => some (SysTeam.stopPoll pind s)
  | .mainIter adcT adcL pind, s => some (SysTeam.mainIter adcT adcL pind s).1
  | .int0 pind fuel, s => INT0_vect pind fuel s
  | .int1 pind fuel, s => INT1_vect pind fuel s
  | .timerOvf, s => some (TIMER1_OVF_vect s)

/-- The state after a sequence of steps, first step first. -/
def runOps : List Op → State → Option State
  | [], s => some s
  | op :: ops, s =>
    match op.apply s with
    | some s1 => runOps ops s1
    | none => none

/-- The states reached after `initSystem` by runs in which every section of
the foreground loop, every transport call and every handler runs to
completion before the next one starts.  The runs in which a handler is served
inside a section are those of `PReachable`. -/
inductive Reachable : State → Prop where
  /-- The state set up by `initSystem` from any register contents. -/
  | init (s0 : State) : Reachable (initSystem s0)
  /-- One more step. -/
  | step (op : Op) (s s1 : State) : Reachable s → op.apply s = some s1 → Reachable s1

/-- The state after `n` sample ticks, tick `k` (from 0) with conversions `adcs k`. -/
def runTicks (adcs : Nat → Nat → Nat) : Nat → State → State
  | 0, s => s
  | n + 1, s => (sampleTick (adcs n) (runTicks adcs n s)).1

/-- All registers and globals zero, the buffer zeroed. -/
def resetState : State :=
  { song := fun _ => 0, songLength := 0, recording := 0, playing := 0,
    playCounter := 0, timer := 0, DDRB := 0, DDRC := 0, DDRD := 0, PORTB := 0,
    PORTC := 0, TCCR1A := 0, TCCR1B := 0, TIMSK1 := 0, EICRA := 0, EIMSK := 0 }

/-- Conversions with only key1 pressed. -/
def key1Only (ch : Nat) : Nat := if ch = 0 then 200 else 0

/-- The two flags are 0 or 1 and not both 1. -/
def FlagsOk (s : State) : Prop :=
  (s.recording = 0 ∨ s.recording = 1) ∧ (s.playing = 0 ∨ s.playing = 1) ∧
    ¬(s.recording = 1 ∧ s.playing = 1)

/-- A state reached by a record edge and one sample tick. -/
def sampleReachable : State :=
  (sampleTick key1Only (recordSelect (initSystem resetState))).1

/-- The port after the five lines 210-214 for the song byte `b`, from port `p`. -/
def playOut (b p : Nat) : Nat :=
  driveLine b 4 0x10 0xEF (driveLine b 3 0x08 0xF7 (driveLine b 2 0x04 0xFB
    (driveLine b 1 0x02 0xFD (driveLine b 0 0x01 0xFE p))))

/-- The state in which playback starts after a take of `N` ticks: RecordEdge,
`N` sample ticks (tick `k` with conversions `adcs k`), RecordEdge, PlayEdge. -/
def playbackStart (adcs : Nat → Nat → Nat) (N : Nat) (s : State) : State :=
  playSelect (recordSelect (runTicks adcs N (recordSelect s)))

/-- A state at the end of a one-frame song while playing: RecordEdge, one
tick, RecordEdge, PlayEdge, one tick. -/
def playingAtEnd : State :=
  runTicks (fun _ => key1Only) 1 (playbackStart (fun _ => key1Only) 1 (initSystem resetState))

/-- The bytes read from `PIND` while no button is held: PD2 and PD3 high, the
stop line PD4 inactive. -/
def pinsReleased : Nat → Nat := fun _ => 0x0C

/-- The bytes read from `PIND` while the play button holds PD2 low. -/
def playPressed : Nat → Nat := fun _ => 0x08

/-- The bytes read from `PIND` while the record button holds PD3 low. -/
def recPressed : Nat → Nat := fun _ => 0x04

/-- The Recording state right after `initSystem` and a RecordEdge. -/
def recordingState : State := recordSelect (initSystem resetState)

/-- The Playing state right after `initSystem` and a PlayEdge. -/
def playingState : State := playSelect (initSystem resetState)

/-- The indicator bits and the timer register agree with the flags: PORTC bit
3 is set exactly when `playing` is 1, PORTC bit 2 exactly when `recording` is
1, and TCCR1B is 2 in an active mode and 0 in Idle. -/
def LedsOk (s : State) : Prop :=
  (s.PORTC.testBit 3 = true ↔ s.playing = 1) ∧
  (s.PORTC.testBit 2 = true ↔ s.recording = 1) ∧
  (s.TCCR1B = 0x02 ↔ (s.recording = 1 ∨ s.playing = 1)) ∧
  (s.TCCR1B = 0 ↔ (s.recording = 0 ∧ s.playing = 0))

/-- The 5-bit frame with bit `i` set exactly when `ci` holds: the sum of the
weights 1, 2, 4, 8, 16 of the keys that are pressed. -/
def frameOf (c0 c1 c2 c3 c4 : Bool) : Nat :=
  (if c0 then 1 else 0) + (if c1 then 2 else 0) + (if c2 then 4 else 0) +
    (if c3 then 8 else 0) + (if c4 then 16 else 0)

/-- The port after the five lines 221-225 for the conversions `adc`, from
port `p`. -/
def liveOut (adc : Nat → Nat) (p : Nat) : Nat :=
  mirrorLine adc 7 0x10 0xEF (mirrorLine adc 6 0x08 0xF7 (mirrorLine adc 5 0x04 0xFB
    (mirrorLine adc 4 0x02 0xFD (mirrorLine adc 0 0x01 0xFE p))))

/-- A Recording state polled late: after `initSystem` and a RecordEdge the
overflow handler has run three times, so `timer` is 3. -/
def delayedState : State :=
  TIMER1_OVF_vect (TIMER1_OVF_vect (TIMER1_OVF_vect recordingState))

/-- A Recording state after an earlier playback: from `playingAtEnd` (cursor
at 1 in a one-frame song) a PlayEdge stops playback and a RecordEdge starts a
new take. -/
def staleCursorState : State := recordSelect (playSelect playingAtEnd)

/-- The cursor is within the song while playing, with the flags and the
length in range. -/
def CursorOk (s : State) : Prop :=
  FlagsOk s ∧ s.songLength ≤ MAX_SONG_LENGTH ∧ (s.playing ≠ 0 → s.playCounter ≤ s.songLength)

/-- The bytes read from `PIND` when PD2 and PD3 are low at the first read (the
one of the `if` of an edge handler) and high at every later read. -/
def lineHighAfterEntry : Nat → Nat := fun k => if k = 0 then 0x00 else 0x0C

/-! ## The foreground loop statement by statement -/

/-- Where a call of `recordSelect` or `playSelect` made by `main` returns to. -/
inductive Ret where
  /-- The calls inside the tick (lines 184 and 202): the next statement is
  line 219. -/
  | toPassthrough
  /-- The calls of the stop poll (lines 229 and 232): the next statement is
  line 179. -/
  | toLoopHead
  deriving DecidableEq, Repr

/-- The statements of the foreground: `Lnnn` is the statement at line `nnn` of
`main`, `Rnnn` and `Pnnn` the statement at line `nnn` of `recordSelect` and of
`playSelect` when called by `main`. -/
inductive Pc where
  | L179 | L180 | L181 | L183 | L190 | L191 | L192 | L193 | L194 | L195 | L196 | L197
  | L200 | L201 | L205 | L206 | L210 | L211 | L212 | L213 | L214 | L215
  | L219 | L221 | L222 | L223 | L224 | L225 | L227 | L228 | L231
  | R85 | R86 | R87 | R88 | R91 | R97 | R100 | R103 | R106
  | P112 | P113 | P114 | P115 | P117 | P123 | P126 | P129 | P132
  deriving DecidableEq, Repr

/-- The statement a call returns to. -/
def Ret.pc : Ret → Pc
  | .toPassthrough => Pc.L219
  | .toLoopHead => Pc.L179

/-- The globals and registers together with the foreground's position: the
next statement `pc`, the local `row` of line 190, and the return point of the
transport call in progress. -/
structure Config where
  /-- The globals and registers. -/
  s : State
  /-- The next statement of the foreground. -/
  pc : Pc
  /-- The local `uint8_t row`. -/
  row : Nat
  /-- The return point of the current call of a transport function. -/
  ret : Ret

/-- One statement of the foreground (lines 179-234 of `main` and lines 85-106,
112-132 of the transport functions it calls).  `adc` are the conversions a
`readADC` of this statement would return, `pind` the byte a read of `PIND`
would return. -/
def mainStep (adc : Nat → Nat) (pind : Nat) (c : Config) : Config × List Access :=
  match c.pc with
  | .L179 => if c.s.timer = 2 then ({ c with pc := .L180 }, []) else ({ c with pc := .L219 }, [])
  | .L180 => ({ c with s := { c.s with timer := 0 }, pc := .L181 }, [])
  | .L181 =>
    if c.s.recording ≠ 0 then ({ c with pc := .L183 }, []) else ({ c with pc := .L200 }, [])
  | .L183 =>
    if c.s.songLength = MAX_SONG_LENGTH then ({ c with pc := .R85, ret := .toPassthrough }, [])
    else ({ c with pc := .L190 }, [])
  | .L190 => ({ c with row := 0, pc := .L191 }, [])
  | .L191 =>
    ({ c with
       row := if readADC adc 0 ≠ 0 then (c.row + 0) % 256 else (c.row + 1) % 256
       pc := .L192 }, [])
  | .L192 =>
    ({ c with
       row := if readADC adc 4 ≠ 0 then (c.row + 0) % 256 else (c.row + 2) % 256
       pc := .L193 }, [])
  | .L193 =>
    ({ c with
       row := if readADC adc 5 ≠ 0 then (c.row + 0) % 256 else (c.row + 4) % 256
       pc := .L194 }, [])
  | .L194 =>
    ({ c with
       row := if readADC adc 6 ≠ 0 then (c.row + 0) % 256 else (c.row + 8) % 256
       pc := .L195 }, [])
  | .L195 =>
    ({ c with
       row := if readADC adc 7 ≠ 0 then (c.row + 0) % 256 else (c.row + 16) % 256
       pc := .L196 }, [])
  | .L196 =>
    ({ c with
       s := { c.s with song := Function.update c.s.song c.s.songLength c.row }
       pc := .L197 },
     [Access.songWrite c.s.songLength c.row])
  | .L197 =>
    ({ c with s := { c.s with songLength := (c.s.songLength + 1) % 65536 }, pc := .L219 }, [])
  | .L200 =>
    if c.s.playing ≠ 0 then ({ c with pc := .L201 }, []) else ({ c with pc := .L219 }, [])
  | .L201 =>
    if c.s.songLength = 0 then ({ c with pc := .P112, ret := .toPassthrough }, [])
    else ({ c with pc := .L205 }, [])
  | .L205 =>
    if c.s.playCounter = c.s.songLength then ({ c with pc := .L206 }, [])
    else ({ c with pc := .L210 }, [])
  | .L206 => ({ c with s := { c.s with playCounter := 0 }, pc := .L219 }, [])
  | .L210 =>
    ({ c with
       s := { c.s with PORTB := driveLine (c.s.song c.s.playCounter) 0 0x01 0xFE c.s.PORTB }
       pc := .L211 },
     [Access.songRead c.s.playCounter,
      Access.portbWrite (driveLine (c.s.song c.s.playCounter) 0 0x01 0xFE c.s.PORTB)])
  | .L211 =>
    ({ c with
       s := { c.s with PORTB := driveLine (c.s.song c.s.playCounter) 1 0x02 0xFD c.s.PORTB }
       pc := .L212 },
     [Access.songRead c.s.playCounter,
      Access.portbWrite (driveLine (c.s.song c.s.playCounter) 1 0x02 0xFD c.s.PORTB)])
  | .L212 =>
    ({ c with
       s := { c.s with PORTB := driveLine (c.s.song c.s.playCounter) 2 0x04 0xFB c.s.PORTB }
       pc := .L213 },
     [Access.songRead c.s.playCounter,
      Access.portbWrite (driveLine (c.s.song c.s.playCounter) 2 0x04 0xFB c.s.PORTB)])
  | .L213 =>
    ({ c with
       s := { c.s with PORTB := driveLine (c.s.song c.s.playCounter) 3 0x08 0xF7 c.s.PORTB }
       pc := .L214 },
     [Access.songRead c.s.playCounter,
      Access.portbWrite (driveLine (c.s.song c.s.playCounter) 3 0x08 0xF7 c.s.PORTB)])
  | .L214 =>
    ({ c with
       s := { c.s with PORTB := driveLine (c.s.song c.s.playCounter) 4 0x10 0xEF c.s.PORTB }
       pc := .L215 },
     [Access.songRead c.s.playCounter,
      Access.portbWrite (driveLine (c.s.song c.s.playCounter) 4 0x10 0xEF c.s.PORTB)])
  | .L215 =>
    ({ c with s := { c.s with playCounter := (c.s.playCounter + 1) % 65536 }, pc := .L219 }, [])
  | .L219 =>
    if c.s.playing = 0 then ({ c with pc := .L221 }, []) else ({ c with pc := .L227 }, [])
  | .L221 =>
    ({ c with s := { c.s with PORTB := mirrorLine adc 0 0x01 0xFE c.s.PORTB }, pc := .L222 },
     [Access.portbWrite (mirrorLine adc 0 0x01 0xFE c.s.PORTB)])
  | .L222 =>
    ({ c with s := { c.s with PORTB := mirrorLine adc 4 0x02 0xFD c.s.PORTB }, pc := .L223 },
     [Access.portbWrite (mirrorLine adc 4 0x02 0xFD c.s.PORTB)])
  | .L223 =>
    ({ c with s := { c.s with PORTB := mirrorLine adc 5 0x04 0xFB c.s.PORTB }, pc := .L224 },
     [Access.portbWrite (mirrorLine adc 5 0x04 0xFB c.s.PORTB)])
  | .L224 =>
    ({ c with s := { c.s with PORTB := mirrorLine adc 6 0x08 0xF7 c.s.PORTB }, pc := .L225 },
     [Access.portbWrite (mirrorLine adc 6 0x08 0xF7 c.s.PORTB)])
  | .L225 =>
    ({ c with s := { c.s with PORTB := mirrorLine adc 7 0x10 0xEF c.s.PORTB }, pc := .L227 },
     [Access.portbWrite (mirrorLine adc 7 0x10 0xEF c.s.PORTB)])
  | .L227 =>
    if pind &&& (1 <<< PORTD4) ≠ 0 then ({ c with pc := .L228 }, [])
    else ({ c with pc := .L179 }, [])
  | .L228 =>
    if c.s.playing ≠ 0 then ({ c with pc := .P112, ret := .toLoopHead }, [])
    else ({ c with pc := .L231 }, [])
  | .L231 =>
    if c.s.recording ≠ 0 then ({ c with pc := .R85, ret := .toLoopHead }, [])
    else ({ c with pc := .L179 }, [])
  | .R85 => if c.s.playing ≠ 0 then ({ c with pc := c.ret.pc }, []) else ({ c with pc := .R86 }, [])
  | .R86 => if c.s.recording = 0 then ({ c with pc := .R87 }, []) else ({ c with pc := .R100 }, [])
  | .R87 => ({ c with s := { c.s with recording := 1 }, pc := .R88 }, [])
  | .R88 => ({ c with s := { c.s with songLength := 0 }, pc := .R91 }, [])
  | .R91 => ({ c with s := { c.s with PORTC := c.s.PORTC ||| 0x04 }, pc := .R97 }, [])
  | .R97 => ({ c with s := { c.s with TCCR1B := 0x02 }, pc := c.ret.pc }, [])
  | .R100 => ({ c with s := { c.s with recording := 0 }, pc := .R103 }, [])
  | .R103 => ({ c with s := { c.s with PORTC := c.s.PORTC &&& 0xFB }, pc := .R106 }, [])
  | .R106 => ({ c with s := { c.s with TCCR1B := 0 }, pc := c.ret.pc }, [])
  | .P112 =>
    if c.s.recording ≠ 0 then ({ c with pc := c.ret.pc }, []) else ({ c with pc := .P113 }, [])
  | .P113 => if c.s.playing = 0 then ({ c with pc := .P114 }, []) else ({ c with pc := .P126 }, [])
  | .P114 => ({ c with s := { c.s with playing := 1 }, pc := .P115 }, [])
  | .P115 => ({ c with s := { c.s with playCounter := 0 }, pc := .P117 }, [])
  | .P117 => ({ c with s := { c.s with PORTC := c.s.PORTC ||| 0x08 }, pc := .P123 }, [])
  | .P123 => ({ c with s := { c.s with TCCR1B := 0x02 }, pc := c.ret.pc }, [])
  | .P126 => ({ c with s := { c.s with playing := 0 }, pc := .P129 }, [])
  | .P129 => ({ c with s := { c.s with PORTC := c.s.PORTC &&& 0xF7 }, pc := .P132 }, [])
  | .P132 => ({ c with s := { c.s with TCCR1B := 0 }, pc := c.ret.pc }, [])

/-- The steps of a run with preemption: one statement of the foreground, or a
handler served between two statements and run to completion. -/
inductive MicroOp where
  /-- The next statement of the foreground. -/
  | main (adc : Nat → Nat) (pind : Nat)
  /-- The play-edge handler. -/
  | int0 (pind : Nat → Nat) (fuel : Nat)
  /-- The record-edge handler. -/
  | int1 (pind : Nat → Nat) (fuel : Nat)
  /-- The timer-overflow handler. -/
  | ovf

/-- The configuration after a step, `none` when a handler did not return. -/
def MicroOp.apply : MicroOp → Config → Option Config
  | .main adc pind, c => some (mainStep adc pind c).1
  | .int0 pind fuel, c => (INT0_vect pind fuel c.s).map (fun s1 => { c with s := s1 })
  | .int1 pind fuel, c => (INT1_vect pind fuel c.s).map (fun s1 => { c with s := s1 })
  | .ovf, c => some { c with s := TIMER1_OVF_vect c.s }

/-- The configuration after a sequence of steps, first step first. -/
def runMicro : List MicroOp → Config → Option Config
  | [], c => some c
  | op :: ops, c =>
    match op.apply c with
    | some c1 => runMicro ops c1
    | none => none

/-- The configuration in which `main` enters its loop after `initSystem`. -/
def startConfig (s0 : State) : Config :=
  { s := initSystem s0, pc := Pc.L179, row := 0, ret := Ret.toLoopHead }

/-- The configurations the program reaches after `initSystem`, a handler
being served between any two statements of the foreground. -/
inductive PReachable : Config → Prop where
  /-- The entry of the loop after `initSystem` from any register contents. -/
  | init (s0 : State) : PReachable (startConfig s0)
  /-- One more step. -/
  | step (op : MicroOp) (c c1 : Config) : PReachable c → op.apply c = some c1 → PReachable c1

/-- The configuration after `n` statements of the foreground with no handler
served, every statement with the same inputs. -/
def runMain (adc : Nat → Nat) (pind : Nat) : Nat → Config → Config
  | 0, c => c
  | n + 1, c => runMain adc pind n (mainStep adc pind c).1

/-- The next `n` statements of the foreground, each with conversions `adc`
and `PIND` byte `pind`. -/
def mainSteps (n : Nat) (adc : Nat → Nat) (pind : Nat) : List MicroOp :=
  List.replicate n (MicroOp.main adc pind)

/-- A run that ends with both flags set.  A RecordEdge starts a take; with
the stop line held (PIND 0x1C) the foreground goes through lines 179, 219,
221-225, 227, 228, 231 into `recordSelect` and passes line 85 (`playing` is
0); the record-edge and then the play-edge handler are served; the foreground
continues with lines 86, 87, 88, 91, 97. -/
def raceBothFlags : List MicroOp :=
  [MicroOp.int1 recPressed 1] ++ mainSteps 11 key1Only 0x1C ++
    [MicroOp.int1 recPressed 1, MicroOp.int0 playPressed 1] ++ mainSteps 5 key1Only 0x1C

/-- A run that ends Recording with the record indicator off.  A RecordEdge
starts a take; with the stop line held the foreground enters `recordSelect`
and executes lines 85, 86 and 100 (`recording = 0`); the record-edge handler
is served; the foreground continues with lines 103 and 106. -/
def raceLedOff : List MicroOp :=
  [MicroOp.int1 recPressed 1] ++ mainSteps 13 key1Only 0x1C ++
    [MicroOp.int1 recPressed 1] ++ mainSteps 2 key1Only 0x1C

/-- A run that ends Playing with the timer stopped.  A PlayEdge starts
playback; with the stop line held the foreground goes through lines 179, 219,
227, 228 into `playSelect` and executes lines 112, 113 and 126
(`playing = 0`); the play-edge handler is served; the foreground continues
with lines 129 and 132. -/
def raceTimerOff : List MicroOp :=
  [MicroOp.int0 playPressed 1] ++ mainSteps 7 key1Only 0x1C ++
    [MicroOp.int0 playPressed 1] ++ mainSteps 2 key1Only 0x1C

/-- A run up to line 210 of a playback tick of a one-frame song: RecordEdge,
two overflows, one foreground iteration that records a frame with key1 held
(19 statements), RecordEdge, PlayEdge, two overflows, and lines 179, 180,
181, 200, 201, 205 of the next iteration. -/
def playbackTickAt210 : List MicroOp :=
  [MicroOp.int1 recPressed 1, MicroOp.ovf, MicroOp.ovf] ++ mainSteps 19 key1Only 0x0C ++
    [MicroOp.int1 recPressed 1, MicroOp.int0 playPressed 1, MicroOp.ovf, MicroOp.ovf] ++
    mainSteps 6 key1Only 0x0C

/-- A run in which a playback tick reads past the length: after the test of
line 205 the play-edge handler (playback stops) and the record-edge handler
(a take starts, `songLength = 0`) are served; the next statement is line
210. -/
def raceStaleRead : List MicroOp :=
  playbackTickAt210 ++ [MicroOp.int0 playPressed 1, MicroOp.int1 recPressed 1]

/-- A run that ends Playing with the cursor past the length: after the test
of line 205 the handlers INT0, INT1, INT1, INT0 are served (playback stops, a
take starts and stops, playback starts), and the foreground continues with
lines 210-215. -/
def raceCursorBeyond : List MicroOp :=
  playbackTickAt210 ++
    [MicroOp.int0 playPressed 1, MicroOp.int1 recPressed 1, MicroOp.int1 recPressed 1,
      MicroOp.int0 playPressed 1] ++ mainSteps 6 key1Only 0x0C

/-- A run without preemption inside a section that ends Recording with the
cursor past the length: the playback tick of `playbackTickAt210` is completed
(lines 210-215), then, before line 219, the play-edge handler stops playback
and the record-edge handler starts a take. -/
def staleCursorRun : List MicroOp :=
  playbackTickAt210 ++ mainSteps 6 key1Only 0x0C ++
    [MicroOp.int0 playPressed 1, MicroOp.int1 recPressed 1]

/-- The statements of the record branch after the test of line 183, up to the
increment of line 197. -/
def inRecordBody : Pc → Bool
  | .L190 | .L191 | .L192 | .L193 | .L194 | .L195 | .L196 | .L197 => true
  | _ => false

/-- The length is within the capacity, and below it inside the record branch
after the test of line 183. -/
def LengthOk (c : Config) : Prop :=
  c.s.songLength ≤ MAX_SONG_LENGTH ∧ (inRecordBody c.pc = true → c.s.songLength < MAX_SONG_LENGTH)

/-! ## Stepping lemmas -/

theorem preachable_runMicro (ops : List MicroOp) (c c1 : Config) (h : PReachable c)
    (hr : runMicro ops c = some c1) : PReachable c1 := by
  induction ops generalizing c with
  | nil =>
    simp [runMicro] at hr
    rw [← hr]
    exact h
  | cons op ops ih =>
    simp only [runMicro] at hr
    cases hop : op.apply c with
    | none => simp [hop] at hr
    | some c2 =>
      rw [hop] at hr
      exact ih c2 (PReachable.step op c c2 h hop) hr

theorem recordSelect_idle (s : State) (hr : s.recording = 0) (hp : s.playing = 0) :
    recordSelect s =
      { s with recording := 1, songLength := 0, PORTC := s.PORTC ||| 0x04, TCCR1B := 0x02 } := by
  unfold recordSelect
  simp [hr, hp]

theorem recordSelect_recording (s : State) (hr : s.recording ≠ 0) (hp : s.playing = 0) :
    recordSelect s = { s with recording := 0, PORTC := s.PORTC &&& 0xFB, TCCR1B := 0 } := by
  unfold recordSelect
  simp [hr, hp]

theorem recordSelect_playing (s : State) (hp : s.playing ≠ 0) : recordSelect s = s := by
  unfold recordSelect
  simp [hp]

theorem playSelect_idle (s : State) (hr : s.recording = 0) (hp : s.playing = 0) :
    playSelect s =
      { s with playing := 1, playCounter := 0, PORTC := s.PORTC ||| 0x08, TCCR1B := 0x02 } := by
  unfold playSelect
  simp [hr, hp]

theorem playSelect_playing (s : State) (hr : s.recording = 0) (hp : s.playing ≠ 0) :
    playSelect s = { s with playing := 0, PORTC := s.PORTC &&& 0xF7, TCCR1B := 0 } := by
  unfold playSelect
  simp [hr, hp]

theorem playSelect_recording (s : State) (hr : s.recording ≠ 0) : playSelect s = s := by
  unfold playSelect
  simp [hr]

theorem stopPoll_cases (pind : Nat) (s : State) :
    stopPoll pind s = s ∨ stopPoll pind s = playSelect s ∨ stopPoll pind s = recordSelect s := by
  unfold stopPoll
  split_ifs <;> simp

theorem tickPoll_cases (adc : Nat → Nat) (s : State) :
    tickPoll adc s = (s, []) ∨ tickPoll adc s = sampleTick adc s := by
  unfold tickPoll
  split_ifs <;> simp

theorem INT0_vect_cases (pind : Nat → Nat) (fuel : Nat) (s s1 : State)
    (h : INT0_vect pind fuel s = some s1) : s1 = s ∨ s1 = playSelect s := by
  unfold INT0_vect at h
  split_ifs at h
  · cases hb : busyWait (1 <<< PORTD2) pind fuel 1 <;> simp [hb] at h
    exact Or.inr h.symm
  · simp at h
    exact Or.inl h.symm

theorem INT1_vect_cases (pind : Nat → Nat) (fuel : Nat) (s s1 : State)
    (h : INT1_vect pind fuel s = some s1) : s1 = s ∨ s1 = recordSelect s := by
  unfold INT1_vect at h
  split_ifs at h
  · cases hb : busyWait (1 <<< PORTD3) pind fuel 1 <;> simp [hb] at h
    exact Or.inr h.symm
  · simp at h
    exact Or.inl h.symm

/-- Induction over reachable states: a property that holds after `initSystem`
and is kept by the two transport functions, a sample tick, the passthrough
and the overflow handler holds in every reachable state. -/
theorem reachable_induct (P : State → Prop)
    (hinit : ∀ s0, P (initSystem s0))
    (hrec : ∀ s, P s → P (recordSelect s))
    (hplay : ∀ s, P s → P (playSelect s))
    (htick : ∀ adc s, P s → P (sampleTick adc s).1)
    (hlive : ∀ adc s, P s → P (livePassthrough adc s).1)
    (hovf : ∀ s, P s → P (TIMER1_OVF_vect s)) :
    ∀ s, Reachable s → P s := by
  have hstop : ∀ pind s, P s → P (stopPoll pind s) := by
    intro pind s hs
    rcases stopPoll_cases pind s with h | h | h <;> rw [h]
    · exact hs
    · exact hplay s hs
    · exact hrec s hs
  have hpoll : ∀ adc s, P s → P (tickPoll adc s).1 := by
    intro adc s hs
    rcases tickPoll_cases adc s with h | h <;> rw [h]
    · exact hs
    · exact htick adc s hs
  intro s hr
  induction hr with
  | init s0 => exact hinit s0
  | step op s s1 _ hop ih =>
    cases op with
    | recordSelect => simp [Op.apply] at hop; rw [← hop]; exact hrec s ih
    | playSelect => simp [Op.apply] at hop; rw [← hop]; exact hplay s ih
    | sampleTick adc => simp [Op.apply] at hop; rw [← hop]; exact htick adc s ih
    | tickPoll adc => simp [Op.apply] at hop; rw [← hop]; exact hpoll adc s ih
    | livePassthrough adc => simp [Op.apply] at hop; rw [← hop]; exact hlive adc s ih
    | stopPoll pind => simp [Op.apply] at hop; rw [← hop]; exact hstop pind s ih
    | mainIter adcT adcL pind =>
      simp [Op.apply, mainIter] at hop
      rw [← hop]
      exact hstop _ _ (hlive _ _ (hpoll _ _ ih))
    | int0 pind fuel =>
      rcases INT0_vect_cases pind fuel s s1 hop with h | h <;> rw [h]
      · exact ih
      · exact hplay s ih
    | int1 pind fuel =>
      rcases INT1_vect_cases pind fuel s s1 hop with h | h <;> rw [h]
      · exact ih
      · exact hrec s ih
    | timerOvf => simp [Op.apply] at hop; rw [← hop]; exact hovf s ih

theorem flagsOk_recordSelect (s : State) (h : FlagsOk s) : FlagsOk (recordSelect s) := by
  unfold recordSelect
  split_ifs with a b
  · exact h
  · unfold FlagsOk at *
    simp at a ⊢
    omega
  · unfold FlagsOk at *
    simp at a ⊢
    omega

theorem flagsOk_playSelect (s : State) (h : FlagsOk s) : FlagsOk (playSelect s) := by
  unfold playSelect
  split_ifs with a b
  · exact h
  · unfold FlagsOk at *
    simp at a ⊢
    omega
  · unfold FlagsOk at *
    simp at a ⊢
    omega

theorem flagsOk_sampleTick (adc : Nat → Nat) (s : State) (h : FlagsOk s) :
    FlagsOk (sampleTick adc s).1 := by
  unfold sampleTick recordEngine playEngine
  simp only
  split_ifs
  · exact flagsOk_recordSelect _ h
  · exact h
  · exact flagsOk_playSelect _ h
  · exact h
  · exact h
  · exact h

theorem flagsOk_livePassthrough (adc : Nat → Nat) (s : State) (h : FlagsOk s) :
    FlagsOk (livePassthrough adc s).1 := by
  unfold livePassthrough
  split_ifs <;> exact h

theorem flagsOk_of_reachable (s : State) (h : Reachable s) : FlagsOk s := by
  refine reachable_induct FlagsOk ?_ flagsOk_recordSelect flagsOk_playSelect
    flagsOk_sampleTick flagsOk_livePassthrough ?_ s h
  · intro s0; simp [FlagsOk, initSystem]
  · intro s hs; exact hs

theorem songLength_recordSelect_le (s : State) (h : s.songLength ≤ MAX_SONG_LENGTH) :
    (recordSelect s).songLength ≤ MAX_SONG_LENGTH := by
  unfold recordSelect
  split_ifs <;> simp [h]

theorem songLength_playSelect (s : State) : (playSelect s).songLength = s.songLength := by
  unfold playSelect
  split_ifs <;> rfl

theorem song_playSelect (s : State) : (playSelect s).song = s.song := by
  unfold playSelect
  split_ifs <;> rfl

theorem song_recordSelect (s : State) : (recordSelect s).song = s.song := by
  unfold recordSelect
  split_ifs <;> rfl

theorem songLength_sampleTick_le (adc : Nat → Nat) (s : State)
    (h : s.songLength ≤ MAX_SONG_LENGTH) :
    (sampleTick adc s).1.songLength ≤ MAX_SONG_LENGTH := by
  unfold sampleTick recordEngine playEngine
  simp only
  split_ifs with a b c d e
  · exact songLength_recordSelect_le _ h
  · have hb : s.songLength ≠ MAX_SONG_LENGTH := b
    unfold MAX_SONG_LENGTH at *
    simp only
    omega
  · rw [songLength_playSelect]; exact h
  · exact h
  · exact h
  · exact h

theorem songLength_livePassthrough (adc : Nat → Nat) (s : State) :
    (livePassthrough adc s).1.songLength = s.songLength := by
  unfold livePassthrough
  split_ifs <;> rfl

theorem songLength_le_of_reachable (s : State) (h : Reachable s) :
    s.songLength ≤ MAX_SONG_LENGTH := by
  refine reachable_induct (fun s => s.songLength ≤ MAX_SONG_LENGTH) ?_
    songLength_recordSelect_le ?_ songLength_sampleTick_le ?_ ?_ s h
  · intro s0; simp [initSystem]
  · intro s hs; rw [songLength_playSelect]; exact hs
  · intro adc s hs; rw [songLength_livePassthrough]; exact hs
  · intro s hs; exact hs

theorem sampleReachable_reachable : Reachable sampleReachable := by
  refine Reachable.step (Op.sampleTick key1Only) (recordSelect (initSystem resetState)) _ ?_ rfl
  exact Reachable.step Op.recordSelect (initSystem resetState) _ (Reachable.init resetState) rfl

/-! ## Indicators and timer -/

theorem ledMaskBits :
    Nat.testBit 4 3 = false ∧ Nat.testBit 4 2 = true ∧
    Nat.testBit 8 3 = true ∧ Nat.testBit 8 2 = false ∧
    Nat.testBit 251 3 = true ∧ Nat.testBit 251 2 = false ∧
    Nat.testBit 247 3 = false ∧ Nat.testBit 247 2 = true ∧
    Nat.testBit 243 3 = false ∧ Nat.testBit 243 2 = false := by decide

theorem ledsOk_recordSelect (s : State) (h : FlagsOk s ∧ LedsOk s) :
    FlagsOk (recordSelect s) ∧ LedsOk (recordSelect s) := by
  refine ⟨flagsOk_recordSelect s h.1, ?_⟩
  obtain ⟨⟨f1, f2, f3⟩, l1, l2, l3, l4⟩ := h
  unfold recordSelect
  split_ifs with a b
  · exact ⟨l1, l2, l3, l4⟩
  · unfold LedsOk
    simp only [Nat.testBit_or, ledMaskBits, Bool.or_false, Bool.or_true]
    simp only [ne_eq, not_not] at a
    refine ⟨l1, by simp, by simp, by simp⟩
  · unfold LedsOk
    simp only [Nat.testBit_and, ledMaskBits, Bool.and_false, Bool.and_true]
    simp only [ne_eq, not_not] at a
    refine ⟨l1, by simp, by simp; omega, by simp; omega⟩

theorem ledsOk_playSelect (s : State) (h : FlagsOk s ∧ LedsOk s) :
    FlagsOk (playSelect s) ∧ LedsOk (playSelect s) := by
  refine ⟨flagsOk_playSelect s h.1, ?_⟩
  obtain ⟨⟨f1, f2, f3⟩, l1, l2, l3, l4⟩ := h
  unfold playSelect
  split_ifs with a b
  · exact ⟨l1, l2, l3, l4⟩
  · unfold LedsOk
    simp only [Nat.testBit_or, ledMaskBits, Bool.or_false, Bool.or_true]
    simp only [ne_eq, not_not] at a
    refine ⟨by simp, l2, by simp, by simp⟩
  · unfold LedsOk
    simp only [Nat.testBit_and, ledMaskBits, Bool.and_false, Bool.and_true]
    simp only [ne_eq, not_not] at a
    refine ⟨by simp, l2, by simp; omega, by simp; omega⟩

theorem ledsOk_sampleTick (adc : Nat → Nat) (s : State) (h : FlagsOk s ∧ LedsOk s) :
    FlagsOk (sampleTick adc s).1 ∧ LedsOk (sampleTick adc s).1 := by
  have ht : FlagsOk { s with timer := 0 } ∧ LedsOk { s with timer := 0 } := h
  unfold sampleTick recordEngine playEngine
  simp only
  split_ifs
  · exact ledsOk_recordSelect _ ht
  · exact h
  · exact ledsOk_playSelect _ ht
  · exact h
  · exact h
  · exact h

theorem ledsOk_livePassthrough (adc : Nat → Nat) (s : State) (h : FlagsOk s ∧ LedsOk s) :
    FlagsOk (livePassthrough adc s).1 ∧ LedsOk (livePassthrough adc s).1 := by
  unfold livePassthrough
  split_ifs <;> exact h

/-- In every reachable state the indicators and the timer register agree with
the flags. -/
theorem ledsOk_of_reachable (s : State) (h : Reachable s) : FlagsOk s ∧ LedsOk s := by
  refine reachable_induct (fun s => FlagsOk s ∧ LedsOk s) ?_ ledsOk_recordSelect
    ledsOk_playSelect ledsOk_sampleTick ledsOk_livePassthrough ?_ s h
  · intro s0
    refine ⟨by simp [FlagsOk, initSystem], ?_⟩
    unfold LedsOk initSystem
    simp [Nat.testBit_and, ledMaskBits]
  · intro s hs
    exact hs

/-! ## Bits -/

theorem and_shift_ne_zero (b k : Nat) : (b &&& (1 <<< k) ≠ 0) ↔ b.testBit k = true := by
  rw [Nat.one_shiftLeft]
  constructor
  · intro h
    by_contra hb
    apply h
    apply Nat.eq_of_testBit_eq
    intro i
    simp [Nat.testBit_and, Nat.testBit_two_pow]
    intro hi hk
    subst hk
    exact hb hi
  · intro h h0
    have := congrArg (fun x => x.testBit k) h0
    simp [Nat.testBit_and, Nat.testBit_two_pow, h] at this

theorem testBit_small_high (c i : Nat) (hc : c < 32) (h : 5 ≤ i) : Nat.testBit c i = false := by
  apply Nat.testBit_lt_two_pow
  calc c < 2 ^ 5 := by omega
    _ ≤ 2 ^ i := Nat.pow_le_pow_right (by norm_num) h

theorem testBit_driveLine (b k set clr p i : Nat) :
    (driveLine b k set clr p).testBit i =
      if b.testBit k = true then (p.testBit i || set.testBit i)
      else (p.testBit i && clr.testBit i) := by
  unfold driveLine
  simp only [and_shift_ne_zero]
  split_ifs <;> simp [Nat.testBit_or, Nat.testBit_and]

theorem maskBits :
    ∀ j < 5, ∀ c ∈ [0x10, 0x08, 0x04, 0x02, 0xEF, 0xF7, 0xFB, 0xFD, 0xFE, 0x01, 0x1f],
      Nat.testBit c j = decide (c / 2 ^ j % 2 = 1) := by decide

/-- The five output bits after a playback tick are the low five bits of the
song byte. -/
theorem playOut_low (b p : Nat) : playOut b p &&& 0x1f = b &&& 0x1f := by
  apply Nat.eq_of_testBit_eq
  intro i
  rw [Nat.testBit_and, Nat.testBit_and]
  by_cases hi : i < 5
  · unfold playOut
    simp only [testBit_driveLine]
    interval_cases i <;> simp [maskBits]
  · rw [testBit_small_high 0x1f i (by norm_num) (by omega)]
    simp

theorem and_31_of_lt (b : Nat) (h : b < 32) : b &&& 0x1f = b := by
  have : b &&& 0x1f = b % 2 ^ 5 := Nat.and_pow_two_sub_one_eq_mod b 5
  rw [this]
  exact Nat.mod_eq_of_lt h

theorem scanRow_lt (adc : Nat → Nat) : scanRow adc < 32 := by
  unfold scanRow
  simp only
  split_ifs <;> norm_num

/-! ## Single ticks -/

theorem sampleTick_record (adc : Nat → Nat) (s : State) (hr : s.recording ≠ 0)
    (hl : s.songLength ≠ MAX_SONG_LENGTH) :
    sampleTick adc s =
      ({ s with
         timer := 0
         song := Function.update s.song s.songLength (scanRow adc)
         songLength := (s.songLength + 1) % 65536 },
       [Access.songWrite s.songLength (scanRow adc)]) := by
  unfold sampleTick recordEngine
  simp [hr, hl]

theorem sampleTick_record_full (adc : Nat → Nat) (s : State) (hr : s.recording ≠ 0)
    (hl : s.songLength = MAX_SONG_LENGTH) :
    sampleTick adc s = (recordSelect { s with timer := 0 }, []) := by
  unfold sampleTick recordEngine
  simp [hr, hl]

theorem sampleTick_play_empty (adc : Nat → Nat) (s : State) (hr : s.recording = 0)
    (hp : s.playing ≠ 0) (hl : s.songLength = 0) :
    sampleTick adc s = (playSelect { s with timer := 0 }, []) := by
  unfold sampleTick playEngine
  simp [hr, hp, hl]

theorem sampleTick_play_wrap (adc : Nat → Nat) (s : State) (hr : s.recording = 0)
    (hp : s.playing ≠ 0) (hl : s.songLength ≠ 0) (hc : s.playCounter = s.songLength) :
    sampleTick adc s = ({ s with timer := 0, playCounter := 0 }, []) := by
  unfold sampleTick playEngine
  simp [hr, hp, hl, hc]

theorem sampleTick_play_out (adc : Nat → Nat) (s : State) (hr : s.recording = 0)
    (hp : s.playing ≠ 0) (hl : s.songLength ≠ 0) (hc : s.playCounter ≠ s.songLength) :
    (sampleTick adc s).1 =
      { s with
        timer := 0
        PORTB := playOut (s.song s.playCounter) s.PORTB
        playCounter := (s.playCounter + 1) % 65536 } ∧
    (∀ a ∈ (sampleTick adc s).2,
      a = Access.songRead s.playCounter ∨ ∃ v, a = Access.portbWrite v) ∧
    Access.songRead s.playCounter ∈ (sampleTick adc s).2 := by
  unfold sampleTick playEngine
  simp [hr, hp, hl, hc, playOut]

theorem sampleTick_idle (adc : Nat → Nat) (s : State) (hr : s.recording = 0)
    (hp : s.playing = 0) :
    sampleTick adc s = ({ s with timer := 0 }, []) := by
  unfold sampleTick
  simp [hr, hp]

/-! ## Runs of ticks -/

/-- While recording from an empty song, `k` ticks (`k` at most the capacity)
store the `k` scanned rows in order and touch nothing else but `timer`. -/
theorem runTicks_record (adcs : Nat → Nat → Nat) (s : State) (hr : s.recording ≠ 0)
    (hl : s.songLength = 0) (k : Nat) (hk : k ≤ MAX_SONG_LENGTH) :
    (runTicks adcs k s).recording = s.recording ∧
    (runTicks adcs k s).playing = s.playing ∧
    (runTicks adcs k s).songLength = k ∧
    (∀ i, i < k → (runTicks adcs k s).song i = scanRow (adcs i)) ∧
    (∀ i, k ≤ i → (runTicks adcs k s).song i = s.song i) ∧
    (runTicks adcs k s).PORTB = s.PORTB ∧
    (runTicks adcs k s).PORTC = s.PORTC ∧
    (runTicks adcs k s).TCCR1B = s.TCCR1B ∧
    (runTicks adcs k s).playCounter = s.playCounter := by
  induction k with
  | zero => simp [runTicks, hl]
  | succ k ih =>
    obtain ⟨h1, h2, h3, h4, h5, h6, h7, h8, h9⟩ := ih (by omega)
    have hne : (runTicks adcs k s).songLength ≠ MAX_SONG_LENGTH := by omega
    have hrec : (runTicks adcs k s).recording ≠ 0 := by rw [h1]; exact hr
    have hk2 : k + 1 ≤ 1400 := hk
    simp only [runTicks, sampleTick_record (adcs k) _ hrec hne]
    refine ⟨h1, h2, ?_, ?_, ?_, h6, h7, h8, h9⟩
    · rw [h3]; omega
    · intro i hi
      rw [h3]
      by_cases hik : i = k
      · subst hik; simp
      · rw [Function.update_noteq hik]; exact h4 i (by omega)
    · intro i hi
      rw [h3, Function.update_noteq (by omega)]
      exact h5 i (by omega)

/-- While playing a non-empty song from cursor 0, `k` ticks (`k` at most the
length) advance the cursor to `k`, leave the song alone, and after tick `k`
the five output bits are those of entry `k - 1`. -/
theorem runTicks_play (adcs : Nat → Nat → Nat) (s : State) (hr : s.recording = 0)
    (hp : s.playing ≠ 0) (hl : s.songLength ≠ 0) (hm : s.songLength ≤ MAX_SONG_LENGTH)
    (hc : s.playCounter = 0) (k : Nat) (hk : k ≤ s.songLength) :
    (runTicks adcs k s).recording = 0 ∧
    (runTicks adcs k s).playing = s.playing ∧
    (runTicks adcs k s).songLength = s.songLength ∧
    (runTicks adcs k s).song = s.song ∧
    (runTicks adcs k s).playCounter = k ∧
    (runTicks adcs k s).PORTC = s.PORTC ∧
    (runTicks adcs k s).TCCR1B = s.TCCR1B ∧
    (∀ j, k = j + 1 → (runTicks adcs k s).PORTB &&& 0x1f = s.song j &&& 0x1f) := by
  induction k with
  | zero => simp [runTicks, hr, hc]
  | succ k ih =>
    obtain ⟨h1, h2, h3, h4, h5, h6, h7, _⟩ := ih (by omega)
    have hp2 : (runTicks adcs k s).playing ≠ 0 := by rw [h2]; exact hp
    have hl2 : (runTicks adcs k s).songLength ≠ 0 := by rw [h3]; exact hl
    have hc2 : (runTicks adcs k s).playCounter ≠ (runTicks adcs k s).songLength := by
      rw [h3, h5]; omega
    have hm2 : s.songLength ≤ 1400 := hm
    simp only [runTicks, (sampleTick_play_out (adcs k) _ h1 hp2 hl2 hc2).1]
    refine ⟨h1, h2, h3, h4, ?_, h6, h7, ?_⟩
    · rw [h5]; omega
    · intro j hj
      have : j = k := by omega
      subst this
      rw [playOut_low, h5, h4]

/-! ## Invariants of runs without preemption inside a section -/

/-- Without preemption inside a section: in every state reached by a sequence
of recordSelect, playSelect, sample-tick, live-passthrough, stop-poll and
handler steps each run to completion, the flags recording and playing are
each 0 or 1 and never both 1, so the mode is exactly one of Idle, Recording
and Playing. -/
theorem mutual_exclusion_reachable (s : State) (h : Reachable s) :
    (s.recording = 0 ∨ s.recording = 1) ∧ (s.playing = 0 ∨ s.playing = 1) ∧
    ¬(s.recording = 1 ∧ s.playing = 1) ∧
    (isIdle s ∨ isRecording s ∨ isPlaying s) ∧
    ¬(isIdle s ∧ isRecording s) ∧ ¬(isIdle s ∧ isPlaying s) ∧
    ¬(isRecording s ∧ isPlaying s) := by
  obtain ⟨h1, h2, h3⟩ := flagsOk_of_reachable s h
  unfold isIdle isRecording isPlaying
  refine ⟨h1, h2, h3, ?_, ?_, ?_, ?_⟩ <;> omega

theorem mutual_exclusion_reachable_witness :
    Reachable sampleReachable ∧
    ((sampleReachable.recording = 0 ∨ sampleReachable.recording = 1) ∧
    (sampleReachable.playing = 0 ∨ sampleReachable.playing = 1) ∧
    ¬(sampleReachable.recording = 1 ∧ sampleReachable.playing = 1) ∧
    (isIdle sampleReachable ∨ isRecording sampleReachable ∨ isPlaying sampleReachable) ∧
    ¬(isIdle sampleReachable ∧ isRecording sampleReachable) ∧
    ¬(isIdle sampleReachable ∧ isPlaying sampleReachable) ∧
    ¬(isRecording sampleReachable ∧ isPlaying sampleReachable)) :=
  ⟨sampleReachable_reachable, mutual_exclusion_reachable sampleReachable sampleReachable_reachable⟩

/-- C2 (capacity invariant): in every state reachable from the initial state
through any sequence of operations (record and play edges, stop polls, sample
ticks with arbitrary key readings, passthrough, overflows),
0 <= songLength <= MAX_SONG_LENGTH = 1400. -/
theorem capacity_invariant_reachable (s : State) (h : Reachable s) :
    0 ≤ s.songLength ∧ s.songLength ≤ MAX_SONG_LENGTH ∧ MAX_SONG_LENGTH = 1400 :=
  ⟨Nat.zero_le _, songLength_le_of_reachable s h, rfl⟩

theorem capacity_invariant_reachable_witness :
    Reachable sampleReachable ∧
    (0 ≤ sampleReachable.songLength ∧ sampleReachable.songLength ≤ MAX_SONG_LENGTH ∧
      MAX_SONG_LENGTH = 1400) :=
  ⟨sampleReachable_reachable, capacity_invariant_reachable sampleReachable sampleReachable_reachable⟩

/-! ## Round trip -/

theorem playbackStart_facts (adcs : Nat → Nat → Nat) (N : Nat) (hN : N ≤ MAX_SONG_LENGTH)
    (s : State) (hs : isIdle s) :
    (playbackStart adcs N s).recording = 0 ∧
    (playbackStart adcs N s).playing = 1 ∧
    (playbackStart adcs N s).songLength = N ∧
    (playbackStart adcs N s).playCounter = 0 ∧
    (∀ i, i < N → (playbackStart adcs N s).song i = scanRow (adcs i)) := by
  obtain ⟨hr, hp⟩ := hs
  have h0 := recordSelect_idle s hr hp
  obtain ⟨h1, h2, h3, h4, -⟩ :=
    runTicks_record adcs (recordSelect s) (by rw [h0]; simp) (by rw [h0]) N hN
  have h1b : (runTicks adcs N (recordSelect s)).recording ≠ 0 := by rw [h1, h0]; simp
  have h2b : (runTicks adcs N (recordSelect s)).playing = 0 := by rw [h2, h0]; exact hp
  unfold playbackStart
  rw [recordSelect_recording _ h1b h2b]
  unfold playSelect
  simp only [ne_eq, not_true_eq_false, if_false, h2b, if_true]
  exact ⟨trivial, trivial, h3, trivial, h4⟩

/-- C3 (round trip): for 1 <= N < 1400 and any N key readings, from Idle the
run RecordEdge, N sample ticks (tick k scanning reading k), RecordEdge,
PlayEdge, N sample ticks is such that, counting ticks from 0, recording tick k
captures the frame scanRow (adcs k) with the single write song[k] = frame, the
cursor is k before playback tick k (so it goes 0,1,...,N-1), playback tick k
reads song[k] and no other entry, that entry is the frame captured by
recording tick k, and the five output bits PORTB & 0x1f after playback tick k
equal that frame. -/
theorem round_trip (N : Nat) (h1 : 1 ≤ N) (hN : N < MAX_SONG_LENGTH)
    (adcs adcsP : Nat → Nat → Nat) (s : State) (hs : isIdle s) (k : Nat) (hk : k < N) :
    (sampleTick (adcs k) (runTicks adcs k (recordSelect s))).2 =
      [Access.songWrite k (scanRow (adcs k))] ∧
    (runTicks adcsP k (playbackStart adcs N s)).playCounter = k ∧
    Access.songRead k ∈ (sampleTick (adcsP k) (runTicks adcsP k (playbackStart adcs N s))).2 ∧
    (∀ i, Access.songRead i ∈
        (sampleTick (adcsP k) (runTicks adcsP k (playbackStart adcs N s))).2 → i = k) ∧
    (∀ i v, Access.songWrite i v ∉
        (sampleTick (adcsP k) (runTicks adcsP k (playbackStart adcs N s))).2) ∧
    (runTicks adcsP k (playbackStart adcs N s)).song k = scanRow (adcs k) ∧
    (runTicks adcsP (k + 1) (playbackStart adcs N s)).PORTB &&& 0x1f = scanRow (adcs k) := by
  have hN2 : N < 1400 := hN
  have hNle : N ≤ MAX_SONG_LENGTH := Nat.le_of_lt hN
  obtain ⟨p1, p2, p3, p4, p5⟩ := playbackStart_facts adcs N hNle s hs
  have hidle := recordSelect_idle s hs.1 hs.2
  obtain ⟨r1, -, r3, -⟩ :=
    runTicks_record adcs (recordSelect s) (by rw [hidle]; simp) (by rw [hidle]) k
      (by unfold MAX_SONG_LENGTH; omega)
  have r1b : (runTicks adcs k (recordSelect s)).recording ≠ 0 := by rw [r1, hidle]; simp
  have r3b : (runTicks adcs k (recordSelect s)).songLength ≠ MAX_SONG_LENGTH := by
    rw [r3]; unfold MAX_SONG_LENGTH; omega
  have hp0 : (playbackStart adcs N s).playing ≠ 0 := by rw [p2]; simp
  have hl0 : (playbackStart adcs N s).songLength ≠ 0 := by rw [p3]; omega
  have hm0 : (playbackStart adcs N s).songLength ≤ MAX_SONG_LENGTH := by rw [p3]; exact hNle
  obtain ⟨q1, q2, q3, q4, q5, -⟩ :=
    runTicks_play adcsP (playbackStart adcs N s) p1 hp0 hl0 hm0 p4 k (by rw [p3]; omega)
  obtain ⟨-, -, -, -, -, -, -, q6⟩ :=
    runTicks_play adcsP (playbackStart adcs N s) p1 hp0 hl0 hm0 p4 (k + 1) (by rw [p3]; omega)
  have hq2 : (runTicks adcsP k (playbackStart adcs N s)).playing ≠ 0 := by rw [q2]; exact hp0
  have hq3 : (runTicks adcsP k (playbackStart adcs N s)).songLength ≠ 0 := by rw [q3]; exact hl0
  have hq5 : (runTicks adcsP k (playbackStart adcs N s)).playCounter ≠
      (runTicks adcsP k (playbackStart adcs N s)).songLength := by rw [q5, q3, p3]; omega
  have hacc := (sampleTick_play_out (adcsP k) _ q1 hq2 hq3 hq5).2.1
  have hrd := (sampleTick_play_out (adcsP k) _ q1 hq2 hq3 hq5).2.2
  refine ⟨?_, q5, ?_, ?_, ?_, ?_, ?_⟩
  · rw [sampleTick_record (adcs k) _ r1b r3b, r3]
  · rw [q5] at hrd; exact hrd
  · intro i hi
    rcases hacc _ hi with h | ⟨v, h⟩
    · rw [q5] at h; injection h
    · cases h
  · intro i v hi
    rcases hacc _ hi with h | ⟨w, h⟩ <;> cases h
  · rw [q4]; exact p5 k hk
  · rw [q6 k rfl, p5 k hk]
    exact and_31_of_lt _ (scanRow_lt _)

theorem round_trip_witness :
    1 ≤ 2 ∧ 2 < MAX_SONG_LENGTH ∧ isIdle (initSystem resetState) ∧ 1 < 2 ∧
    ((sampleTick key1Only (runTicks (fun _ => key1Only) 1
        (recordSelect (initSystem resetState)))).2 =
      [Access.songWrite 1 (scanRow key1Only)] ∧
    (runTicks (fun _ => key1Only) 1
      (playbackStart (fun _ => key1Only) 2 (initSystem resetState))).playCounter = 1 ∧
    Access.songRead 1 ∈ (sampleTick key1Only (runTicks (fun _ => key1Only) 1
      (playbackStart (fun _ => key1Only) 2 (initSystem resetState)))).2 ∧
    (∀ i, Access.songRead i ∈ (sampleTick key1Only (runTicks (fun _ => key1Only) 1
      (playbackStart (fun _ => key1Only) 2 (initSystem resetState)))).2 → i = 1) ∧
    (∀ i v, Access.songWrite i v ∉ (sampleTick key1Only (runTicks (fun _ => key1Only) 1
      (playbackStart (fun _ => key1Only) 2 (initSystem resetState)))).2) ∧
    (runTicks (fun _ => key1Only) 1
      (playbackStart (fun _ => key1Only) 2 (initSystem resetState))).song 1 =
        scanRow key1Only ∧
    (runTicks (fun _ => key1Only) (1 + 1)
      (playbackStart (fun _ => key1Only) 2 (initSystem resetState))).PORTB &&& 0x1f =
        scanRow key1Only) :=
  ⟨by decide, by decide, by decide, by decide,
    round_trip 2 (by decide) (by decide) (fun _ => key1Only) (fun _ => key1Only)
      (initSystem resetState) (by decide) 1 (by decide)⟩

/-! ## Looping -/

theorem sampleTick_playing_stays (adc : Nat → Nat) (s : State) (hm : isPlaying s)
    (hl : 0 < s.songLength) :
    isPlaying (sampleTick adc s).1 ∧ (sampleTick adc s).1.songLength = s.songLength ∧
    (sampleTick adc s).1.song = s.song ∧ (sampleTick adc s).1.PORTC = s.PORTC ∧
    (sampleTick adc s).1.TCCR1B = s.TCCR1B := by
  obtain ⟨hr, hp⟩ := hm
  have hp2 : s.playing ≠ 0 := by omega
  have hl2 : s.songLength ≠ 0 := by omega
  by_cases hc : s.playCounter = s.songLength
  · rw [sampleTick_play_wrap adc s hr hp2 hl2 hc]
    exact ⟨⟨hr, hp⟩, rfl, rfl, rfl, rfl⟩
  · rw [(sampleTick_play_out adc s hr hp2 hl2 hc).1]
    exact ⟨⟨hr, hp⟩, rfl, rfl, rfl, rfl⟩

theorem runTicks_playing_stays (adcs : Nat → Nat → Nat) (s : State) (hm : isPlaying s)
    (hl : 0 < s.songLength) (n : Nat) :
    isPlaying (runTicks adcs n s) ∧ (runTicks adcs n s).songLength = s.songLength ∧
    (runTicks adcs n s).song = s.song ∧ (runTicks adcs n s).PORTC = s.PORTC ∧
    (runTicks adcs n s).TCCR1B = s.TCCR1B := by
  induction n with
  | zero => exact ⟨hm, rfl, rfl, rfl, rfl⟩
  | succ n ih =>
    obtain ⟨h1, h2, h3, h4, h5⟩ := ih
    obtain ⟨g1, g2, g3, g4, g5⟩ :=
      sampleTick_playing_stays (adcs n) (runTicks adcs n s) h1 (by rw [h2]; exact hl)
    simp only [runTicks]
    exact ⟨g1, g2.trans h2, g3.trans h3, g4.trans h4, g5.trans h5⟩

/-- C4 (looping): in a state with mode Playing and songLength > 0, if
playCounter == songLength then one sample tick sets playCounter to 0, leaves
playing == 1 and recording == 0, leaves the indicator port PORTC and the timer
register TCCR1B as they were, changes neither the song, songLength nor the
output port PORTB, and accesses neither the song nor the port; from such a
Playing state every run of sample ticks alone ends in mode Playing with the
same song, length, indicator port and timer register; and when the state is
reachable, the play indicator (PORTC bit 3) is on and the timer is enabled
(TCCR1B == 2) before and after every such run. -/
theorem looping_playback (s : State) (hm : isPlaying s) (hl : 0 < s.songLength) :
    (s.playCounter = s.songLength → ∀ adc : Nat → Nat,
      (sampleTick adc s).1.playCounter = 0 ∧
      (sampleTick adc s).1.playing = 1 ∧
      (sampleTick adc s).1.recording = 0 ∧
      (sampleTick adc s).1.PORTC = s.PORTC ∧
      (sampleTick adc s).1.TCCR1B = s.TCCR1B ∧
      (sampleTick adc s).1.song = s.song ∧
      (sampleTick adc s).1.songLength = s.songLength ∧
      (sampleTick adc s).1.PORTB = s.PORTB ∧
      (sampleTick adc s).2 = []) ∧
    (∀ (adcs : Nat → Nat → Nat) (n : Nat),
      isPlaying (runTicks adcs n s) ∧
      (runTicks adcs n s).songLength = s.songLength ∧
      (runTicks adcs n s).song = s.song ∧
      (runTicks adcs n s).PORTC = s.PORTC ∧
      (runTicks adcs n s).TCCR1B = s.TCCR1B) ∧
    (Reachable s → ∀ (adcs : Nat → Nat → Nat) (n : Nat),
      (runTicks adcs n s).PORTC.testBit 3 = true ∧
      (runTicks adcs n s).TCCR1B = 0x02) := by
  refine ⟨?_, fun adcs n => runTicks_playing_stays adcs s hm hl n, ?_⟩
  · intro hc adc
    rw [sampleTick_play_wrap adc s hm.1 (by rw [hm.2]; simp) (by omega) hc]
    exact ⟨rfl, hm.2, hm.1, rfl, rfl, rfl, rfl, rfl, rfl⟩
  · intro hreach adcs n
    obtain ⟨-, l1, -, l3, -⟩ := ledsOk_of_reachable s hreach
    obtain ⟨-, -, -, g4, g5⟩ := runTicks_playing_stays adcs s hm hl n
    rw [g4, g5]
    exact ⟨l1.2 hm.2, l3.2 (Or.inr hm.2)⟩

theorem playingAtEnd_reachable : Reachable playingAtEnd := by
  have h0 := Reachable.init resetState
  have h1 := Reachable.step Op.recordSelect _ _ h0 rfl
  have h2 := Reachable.step (Op.sampleTick key1Only) _ _ h1 rfl
  have h3 := Reachable.step Op.recordSelect _ _ h2 rfl
  have h4 := Reachable.step Op.playSelect _ _ h3 rfl
  exact Reachable.step (Op.sampleTick key1Only) _ _ h4 rfl

theorem looping_playback_witness :
    isPlaying playingAtEnd ∧ 0 < playingAtEnd.songLength ∧
    playingAtEnd.playCounter = playingAtEnd.songLength ∧
    ((sampleTick key1Only playingAtEnd).1.playCounter = 0 ∧
      (sampleTick key1Only playingAtEnd).1.playing = 1 ∧
      (sampleTick key1Only playingAtEnd).1.recording = 0 ∧
      (sampleTick key1Only playingAtEnd).1.PORTC = playingAtEnd.PORTC ∧
      (sampleTick key1Only playingAtEnd).1.TCCR1B = playingAtEnd.TCCR1B ∧
      (sampleTick key1Only playingAtEnd).1.song = playingAtEnd.song ∧
      (sampleTick key1Only playingAtEnd).1.songLength = playingAtEnd.songLength ∧
      (sampleTick key1Only playingAtEnd).1.PORTB = playingAtEnd.PORTB ∧
      (sampleTick key1Only playingAtEnd).2 = []) ∧
    isPlaying (runTicks (fun _ => key1Only) 5 playingAtEnd) ∧
    Reachable playingAtEnd ∧
    ((runTicks (fun _ => key1Only) 5 playingAtEnd).PORTC.testBit 3 = true ∧
      (runTicks (fun _ => key1Only) 5 playingAtEnd).TCCR1B = 0x02) :=
  ⟨by decide, by decide, by decide,
    (looping_playback playingAtEnd (by decide) (by decide)).1 (by decide) key1Only,
    ((looping_playback playingAtEnd (by decide) (by decide)).2.1 (fun _ => key1Only) 5).1,
    playingAtEnd_reachable,
    (looping_playback playingAtEnd (by decide) (by decide)).2.2 playingAtEnd_reachable
      (fun _ => key1Only) 5⟩

/-! ## Buffer exhaustion -/

theorem and_mask_clear (x m b : Nat) (h : m &&& b = 0) : (x &&& m) &&& b = 0 := by
  rw [Nat.and_assoc, h, Nat.and_zero]

theorem write_in_bounds (adc : Nat → Nat) (s : State) (hl : s.songLength ≤ MAX_SONG_LENGTH)
    (i v : Nat) (h : Access.songWrite i v ∈ (sampleTick adc s).2) : i < MAX_SONG_LENGTH := by
  by_cases hr : s.recording = 0
  · by_cases hp : s.playing = 0
    · rw [sampleTick_idle adc s hr hp] at h
      simp at h
    · by_cases hz : s.songLength = 0
      · rw [sampleTick_play_empty adc s hr hp hz] at h
        simp at h
      · by_cases hc : s.playCounter = s.songLength
        · rw [sampleTick_play_wrap adc s hr hp hz hc] at h
          simp at h
        · rcases (sampleTick_play_out adc s hr hp hz hc).2.1 _ h with e | ⟨w, e⟩ <;> cases e
  · by_cases hf : s.songLength = MAX_SONG_LENGTH
    · rw [sampleTick_record_full adc s hr hf] at h
      simp at h
    · rw [sampleTick_record adc s hr hf] at h
      simp at h
      omega

/-- C5 (Scenario C, buffer exhaustion): a sample tick taken in Recording ends
in Idle if and only if songLength == 1400 and otherwise ends in Recording; in
every reachable state every write song[i] = v made by a sample tick has
i < 1400; and from Idle, RecordEdge followed by 1400 sample ticks leaves
songLength == 1400 with mode Recording, after which the next sample tick
accesses nothing (writes no frame), leaves the song and songLength unchanged,
and makes the mode Idle with the record indicator bit (PORTC bit 2) cleared
and the timer register TCCR1B zero. -/
theorem buffer_exhaustion :
    (∀ (adc : Nat → Nat) (s : State), isRecording s →
      (isIdle (sampleTick adc s).1 ↔ s.songLength = MAX_SONG_LENGTH) ∧
      (s.songLength ≠ MAX_SONG_LENGTH → isRecording (sampleTick adc s).1)) ∧
    (∀ (adc : Nat → Nat) (s : State), Reachable s →
      ∀ i v, Access.songWrite i v ∈ (sampleTick adc s).2 → i < 1400) ∧
    (∀ (adcs : Nat → Nat → Nat) (adc : Nat → Nat) (s : State), isIdle s →
      (runTicks adcs 1400 (recordSelect s)).songLength = 1400 ∧
      isRecording (runTicks adcs 1400 (recordSelect s)) ∧
      (sampleTick adc (runTicks adcs 1400 (recordSelect s))).2 = [] ∧
      (sampleTick adc (runTicks adcs 1400 (recordSelect s))).1.song =
        (runTicks adcs 1400 (recordSelect s)).song ∧
      (sampleTick adc (runTicks adcs 1400 (recordSelect s))).1.songLength = 1400 ∧
      isIdle (sampleTick adc (runTicks adcs 1400 (recordSelect s))).1 ∧
      (sampleTick adc (runTicks adcs 1400 (recordSelect s))).1.PORTC &&& 0x04 = 0 ∧
      (sampleTick adc (runTicks adcs 1400 (recordSelect s))).1.TCCR1B = 0) := by
  have stopAt : ∀ (adc : Nat → Nat) (s : State), isRecording s →
      s.songLength = MAX_SONG_LENGTH →
      (sampleTick adc s).2 = [] ∧ (sampleTick adc s).1.song = s.song ∧
      (sampleTick adc s).1.songLength = s.songLength ∧ isIdle (sampleTick adc s).1 ∧
      (sampleTick adc s).1.PORTC &&& 0x04 = 0 ∧ (sampleTick adc s).1.TCCR1B = 0 := by
    intro adc s hm hf
    obtain ⟨hr, hp⟩ := hm
    rw [sampleTick_record_full adc s (by omega) hf,
      recordSelect_recording { s with timer := 0 } (by simp; omega) hp]
    exact ⟨rfl, rfl, rfl, ⟨rfl, hp⟩, and_mask_clear _ _ _ (by decide), rfl⟩
  refine ⟨?_, ?_, ?_⟩
  · intro adc s hm
    by_cases hf : s.songLength = MAX_SONG_LENGTH
    · exact ⟨⟨fun _ => hf, fun _ => (stopAt adc s hm hf).2.2.2.1⟩, fun h => absurd hf h⟩
    · obtain ⟨hr, hp⟩ := hm
      rw [sampleTick_record adc s (by omega) hf]
      refine ⟨⟨fun h => ?_, fun h => absurd h hf⟩, fun _ => ⟨hr, hp⟩⟩
      have h1 : s.recording = 0 := h.1
      omega
  · intro adc s hs i v h
    exact write_in_bounds adc s (songLength_le_of_reachable s hs) i v h
  · intro adcs adc s hs
    have hidle := recordSelect_idle s hs.1 hs.2
    obtain ⟨r1, r2, r3, -⟩ :=
      runTicks_record adcs (recordSelect s) (by rw [hidle]; simp) (by rw [hidle]) 1400
        (le_refl _)
    have hrec : isRecording (runTicks adcs 1400 (recordSelect s)) := by
      refine ⟨?_, ?_⟩
      · rw [r1, hidle]
      · rw [r2, hidle]; exact hs.2
    obtain ⟨g1, g2, g3, g4, g5, g6⟩ := stopAt adc _ hrec r3
    exact ⟨r3, hrec, g1, g2, g3.trans r3, g4, g5, g6⟩

theorem buffer_exhaustion_witness :
    isRecording { recordSelect (initSystem resetState) with songLength := 1400 } ∧
    Reachable sampleReachable ∧ isIdle (initSystem resetState) ∧
    (isIdle (sampleTick key1Only
        { recordSelect (initSystem resetState) with songLength := 1400 }).1 ↔
      (1400 : Nat) = MAX_SONG_LENGTH) ∧
    (∀ i v, Access.songWrite i v ∈ (sampleTick key1Only sampleReachable).2 → i < 1400) ∧
    isIdle (sampleTick key1Only
      (runTicks (fun _ => key1Only) 1400 (recordSelect (initSystem resetState)))).1 :=
  ⟨by decide, sampleReachable_reachable, by decide,
    (buffer_exhaustion.1 key1Only
      { recordSelect (initSystem resetState) with songLength := 1400 } (by decide)).1,
    buffer_exhaustion.2.1 key1Only sampleReachable sampleReachable_reachable,
    (buffer_exhaustion.2.2 (fun _ => key1Only) key1Only (initSystem resetState)
      (by decide)).2.2.2.2.2.1⟩

/-! ## Scenarios and error handling -/

theorem scanRow_key1 (adc : Nat → Nat) (h0 : 50 ≤ adc 0) (h4 : adc 4 < 50)
    (h5 : adc 5 < 50) (h6 : adc 6 < 50) (h7 : adc 7 < 50) : scanRow adc = 1 := by
  unfold scanRow readADC
  have n0 : ¬ adc 0 < 50 := by omega
  simp [n0, h4, h5, h6, h7]

/-- C6 (Scenario A): from the initial Idle state set up by initSystem,
RecordEdge, then two sample ticks during both of which only key1 is pressed
(channel 0 high byte >= 50, channels 4, 5, 6, 7 high byte < 50), then
RecordEdge again, ends in mode Idle with songLength == 2 and
song[0] == song[1] == 0b00001. -/
theorem scenario_A (s0 : State) (adc1 adc2 : Nat → Nat)
    (a0 : 50 ≤ adc1 0) (a4 : adc1 4 < 50) (a5 : adc1 5 < 50) (a6 : adc1 6 < 50)
    (a7 : adc1 7 < 50)
    (b0 : 50 ≤ adc2 0) (b4 : adc2 4 < 50) (b5 : adc2 5 < 50) (b6 : adc2 6 < 50)
    (b7 : adc2 7 < 50) :
    isIdle (initSystem s0) ∧
    isIdle (recordSelect (sampleTick adc2
      (sampleTick adc1 (recordSelect (initSystem s0))).1).1) ∧
    (recordSelect (sampleTick adc2
      (sampleTick adc1 (recordSelect (initSystem s0))).1).1).songLength = 2 ∧
    (recordSelect (sampleTick adc2
      (sampleTick adc1 (recordSelect (initSystem s0))).1).1).song 0 = 0b00001 ∧
    (recordSelect (sampleTick adc2
      (sampleTick adc1 (recordSelect (initSystem s0))).1).1).song 1 = 0b00001 := by
  have e1 := scanRow_key1 adc1 a0 a4 a5 a6 a7
  have e2 := scanRow_key1 adc2 b0 b4 b5 b6 b7
  simp [isIdle, initSystem, recordSelect, sampleTick, recordEngine, MAX_SONG_LENGTH, e1, e2,
    Function.update]

theorem scenario_A_witness :
    50 ≤ key1Only 0 ∧ key1Only 4 < 50 ∧ key1Only 5 < 50 ∧ key1Only 6 < 50 ∧ key1Only 7 < 50 ∧
    (isIdle (initSystem resetState) ∧
    isIdle (recordSelect (sampleTick key1Only
      (sampleTick key1Only (recordSelect (initSystem resetState))).1).1) ∧
    (recordSelect (sampleTick key1Only
      (sampleTick key1Only (recordSelect (initSystem resetState))).1).1).songLength = 2 ∧
    (recordSelect (sampleTick key1Only
      (sampleTick key1Only (recordSelect (initSystem resetState))).1).1).song 0 = 0b00001 ∧
    (recordSelect (sampleTick key1Only
      (sampleTick key1Only (recordSelect (initSystem resetState))).1).1).song 1 = 0b00001) :=
  ⟨by decide, by decide, by decide, by decide, by decide,
    scenario_A resetState key1Only key1Only (by decide) (by decide) (by decide) (by decide)
      (by decide) (by decide) (by decide) (by decide) (by decide) (by decide)⟩

/-- C7 (empty-song playback is a forced stop): in a state with mode Playing
and songLength == 0, one sample tick makes the mode Idle (playing == 0, play
indicator bit PORTC bit 3 cleared, the other PORTC bits kept, timer register
TCCR1B zero), accesses no song entry and writes nothing to the output port
(no access at all, PORTB unchanged), and leaves playCounter, songLength and
the song unchanged; in particular, from Idle with an empty song, PlayEdge and
one sample tick end in Idle. -/
theorem empty_song_forced_stop (adc : Nat → Nat) (s : State) :
    (isPlaying s → s.songLength = 0 →
      isIdle (sampleTick adc s).1 ∧
      (sampleTick adc s).1.playing = 0 ∧
      (sampleTick adc s).1.PORTC = s.PORTC &&& 0xF7 ∧
      (sampleTick adc s).1.PORTC &&& 0x08 = 0 ∧
      (sampleTick adc s).1.TCCR1B = 0 ∧
      (sampleTick adc s).2 = [] ∧
      (sampleTick adc s).1.PORTB = s.PORTB ∧
      (sampleTick adc s).1.playCounter = s.playCounter ∧
      (sampleTick adc s).1.songLength = s.songLength ∧
      (sampleTick adc s).1.song = s.song) ∧
    (isIdle s → s.songLength = 0 →
      isPlaying (playSelect s) ∧ isIdle (sampleTick adc (playSelect s)).1) := by
  have main : ∀ t : State, isPlaying t → t.songLength = 0 →
      isIdle (sampleTick adc t).1 ∧
      (sampleTick adc t).1.playing = 0 ∧
      (sampleTick adc t).1.PORTC = t.PORTC &&& 0xF7 ∧
      (sampleTick adc t).1.PORTC &&& 0x08 = 0 ∧
      (sampleTick adc t).1.TCCR1B = 0 ∧
      (sampleTick adc t).2 = [] ∧
      (sampleTick adc t).1.PORTB = t.PORTB ∧
      (sampleTick adc t).1.playCounter = t.playCounter ∧
      (sampleTick adc t).1.songLength = t.songLength ∧
      (sampleTick adc t).1.song = t.song := by
    intro t hm hl
    obtain ⟨hr, hp⟩ := hm
    have hp2 : t.playing ≠ 0 := by omega
    rw [sampleTick_play_empty adc t hr hp2 hl,
      playSelect_playing { t with timer := 0 } hr hp2]
    exact ⟨⟨hr, rfl⟩, rfl, rfl, and_mask_clear _ _ _ (by decide), rfl, rfl, rfl, rfl, rfl, rfl⟩
  refine ⟨main s, ?_⟩
  intro hm hl
  have hplay : isPlaying (playSelect s) := by
    rw [playSelect_idle s hm.1 hm.2]
    exact ⟨hm.1, rfl⟩
  have hlen : (playSelect s).songLength = 0 := by rw [songLength_playSelect]; exact hl
  exact ⟨hplay, (main (playSelect s) hplay hlen).1⟩

theorem empty_song_forced_stop_witness :
    isPlaying (playSelect (initSystem resetState)) ∧
    (playSelect (initSystem resetState)).songLength = 0 ∧
    isIdle (initSystem resetState) ∧ (initSystem resetState).songLength = 0 ∧
    isIdle (sampleTick key1Only (playSelect (initSystem resetState))).1 ∧
    (sampleTick key1Only (playSelect (initSystem resetState))).2 = [] ∧
    (isPlaying (playSelect (initSystem resetState)) ∧
      isIdle (sampleTick key1Only (playSelect (initSystem resetState))).1) :=
  ⟨by decide, by decide, by decide, by decide,
    ((empty_song_forced_stop key1Only (playSelect (initSystem resetState))).1
      (by decide) (by decide)).1,
    ((empty_song_forced_stop key1Only (playSelect (initSystem resetState))).1
      (by decide) (by decide)).2.2.2.2.2.1,
    (empty_song_forced_stop key1Only (initSystem resetState)).2 (by decide) (by decide)⟩

/-- C8 (conflicting requests are dropped): in every state with playing == 1,
recordSelect returns the state unchanged in every field (flags, songLength,
song, playCounter, indicator port, timer register), and in every state with
recording == 1, playSelect returns the state unchanged in every field. -/
theorem conflicting_requests_dropped (s : State) :
    (s.playing = 1 → recordSelect s = s) ∧ (s.recording = 1 → playSelect s = s) := by
  constructor
  · intro h
    exact recordSelect_playing s (by omega)
  · intro h
    exact playSelect_recording s (by omega)

theorem conflicting_requests_dropped_witness :
    (playSelect (initSystem resetState)).playing = 1 ∧
    (recordSelect (initSystem resetState)).recording = 1 ∧
    recordSelect (playSelect (initSystem resetState)) = playSelect (initSystem resetState) ∧
    playSelect (recordSelect (initSystem resetState)) = recordSelect (initSystem resetState) :=
  ⟨by decide, by decide,
    (conflicting_requests_dropped (playSelect (initSystem resetState))).1 (by decide),
    (conflicting_requests_dropped (recordSelect (initSystem resetState))).2 (by decide)⟩

/-! ## Edge handlers -/

theorem and_shift_ne_one (x k : Nat) (hk : k ≠ 0) : x &&& (1 <<< k) ≠ 1 := by
  intro h
  have h0 := congrArg (fun y => y.testBit 0) h
  rw [Nat.one_shiftLeft] at h0
  simp [Nat.testBit_and, Nat.testBit_two_pow, hk] at h0

theorem busyWait_ends (k : Nat) (hk : k ≠ 0) (pind : Nat → Nat) (fuel i : Nat) :
    busyWait (1 <<< k) pind (fuel + 1) i = some (i + 1) := by
  simp [busyWait, and_shift_ne_one _ k hk]

theorem INT0_vect_low (pind : Nat → Nat) (fuel : Nat) (s : State) (hf : 1 ≤ fuel)
    (h : pind 0 &&& (1 <<< PORTD2) = 0) : INT0_vect pind fuel s = some (playSelect s) := by
  obtain ⟨f, rfl⟩ : ∃ f, fuel = f + 1 := ⟨fuel - 1, by omega⟩
  unfold INT0_vect
  rw [if_pos h, busyWait_ends PORTD2 (by decide)]

theorem INT0_vect_high (pind : Nat → Nat) (fuel : Nat) (s : State)
    (h : pind 0 &&& (1 <<< PORTD2) ≠ 0) : INT0_vect pind fuel s = some s := by
  unfold INT0_vect
  rw [if_neg h]

theorem INT1_vect_low (pind : Nat → Nat) (fuel : Nat) (s : State) (hf : 1 ≤ fuel)
    (h : pind 0 &&& (1 <<< PORTD3) = 0) : INT1_vect pind fuel s = some (recordSelect s) := by
  obtain ⟨f, rfl⟩ : ∃ f, fuel = f + 1 := ⟨fuel - 1, by omega⟩
  unfold INT1_vect
  rw [if_pos h, busyWait_ends PORTD3 (by decide)]

theorem INT1_vect_high (pind : Nat → Nat) (fuel : Nat) (s : State)
    (h : pind 0 &&& (1 <<< PORTD3) ≠ 0) : INT1_vect pind fuel s = some s := by
  unfold INT1_vect
  rw [if_neg h]

theorem runOps_append (ops1 ops2 : List Op) (s : State) :
    runOps (ops1 ++ ops2) s = (runOps ops1 s).bind (runOps ops2) := by
  induction ops1 generalizing s with
  | nil => simp [runOps]
  | cons op ops ih =>
    simp only [List.cons_append, runOps]
    cases op.apply s with
    | none => simp
    | some s1 => simpa using ih s1

/-- A press-hold-release around any steps `mid`, when the handler applies
`f` at the press and nothing at the release, is `f` followed by `mid`. -/
theorem runOps_press_release (press release : Op) (f : State → State) (mid : List Op)
    (s : State) (hp : press.apply s = some (f s)) (hr : ∀ t, release.apply t = some t) :
    runOps (press :: (mid ++ [release])) s = runOps mid (f s) := by
  simp only [runOps, hp]
  rw [runOps_append]
  cases runOps mid (f s) with
  | none => simp
  | some t => simp [runOps, hr]

/-- C9, the claim as stated fails: in the reachable Recording state right
after initSystem and a RecordEdge, a bounce-free press and release of the play
button (INT0 with the line read low, then INT0 with the line read high) runs
playSelect once and leaves the state as it was, so no mode transition
results. -/
theorem debounce_counterexample :
    Reachable recordingState ∧ isRecording recordingState ∧
    playPressed 0 &&& (1 <<< PORTD2) = 0 ∧ pinsReleased 0 &&& (1 <<< PORTD2) ≠ 0 ∧
    INT0_vect playPressed 1 recordingState = some (playSelect recordingState) ∧
    playSelect recordingState = recordingState ∧
    runOps [Op.int0 playPressed 1, Op.int0 pinsReleased 1] recordingState =
      some recordingState := by
  have hrec : isRecording recordingState := by decide
  have hlow : playPressed 0 &&& (1 <<< PORTD2) = 0 := by decide
  have hhigh : pinsReleased 0 &&& (1 <<< PORTD2) ≠ 0 := by decide
  have hdrop : playSelect recordingState = recordingState :=
    playSelect_recording recordingState (by decide)
  have hpress := INT0_vect_low playPressed 1 recordingState (le_refl _) hlow
  refine ⟨?_, hrec, hlow, hhigh, hpress, hdrop, ?_⟩
  · exact Reachable.step Op.recordSelect (initSystem resetState) _
      (Reachable.init resetState) rfl
  · have h := runOps_press_release (Op.int0 playPressed 1) (Op.int0 pinsReleased 1) playSelect []
      recordingState hpress (fun t => INT0_vect_high pinsReleased 1 t hhigh)
    rw [hdrop] at h
    simpa [runOps] using h

/-- C9 (debounce idempotence, amended): for a bounce-free press-hold-release
of the play button, the INT0 handler run with the line read low returns after
applying playSelect once, the INT0 handler run with the line read high
returns the state it was given, and the whole sequence press, any steps in
between, release equals playSelect followed by those steps, whatever their
number; this single application is one mode transition when the mode at the
press is Idle (to Playing) or Playing (to Idle) and none when it is Recording
(the request is dropped).  The same holds for the record button with the INT1
handler and recordSelect, the dropped case being Playing. -/
theorem debounce_single_application (s : State) (pLow pHigh : Nat → Nat)
    (fuel fuel2 : Nat) (mid : List Op) (hf : 1 ≤ fuel) :
    (pLow 0 &&& (1 <<< PORTD2) = 0 → pHigh 0 &&& (1 <<< PORTD2) ≠ 0 →
      INT0_vect pLow fuel s = some (playSelect s) ∧
      (∀ t, INT0_vect pHigh fuel2 t = some t) ∧
      runOps (Op.int0 pLow fuel :: (mid ++ [Op.int0 pHigh fuel2])) s =
        runOps mid (playSelect s) ∧
      (isIdle s → isPlaying (playSelect s)) ∧
      (isPlaying s → isIdle (playSelect s)) ∧
      (isRecording s → playSelect s = s)) ∧
    (pLow 0 &&& (1 <<< PORTD3) = 0 → pHigh 0 &&& (1 <<< PORTD3) ≠ 0 →
      INT1_vect pLow fuel s = some (recordSelect s) ∧
      (∀ t, INT1_vect pHigh fuel2 t = some t) ∧
      runOps (Op.int1 pLow fuel :: (mid ++ [Op.int1 pHigh fuel2])) s =
        runOps mid (recordSelect s) ∧
      (isIdle s → isRecording (recordSelect s)) ∧
      (isRecording s → isIdle (recordSelect s)) ∧
      (isPlaying s → recordSelect s = s)) := by
  constructor
  · intro hlow hhigh
    have hpress := INT0_vect_low pLow fuel s hf hlow
    have hrel : ∀ t, INT0_vect pHigh fuel2 t = some t :=
      fun t => INT0_vect_high pHigh fuel2 t hhigh
    refine ⟨hpress, hrel, ?_, ?_, ?_, ?_⟩
    · exact runOps_press_release (Op.int0 pLow fuel) (Op.int0 pHigh fuel2) playSelect mid s
        hpress hrel
    · intro hm
      rw [playSelect_idle s hm.1 hm.2]
      exact ⟨hm.1, rfl⟩
    · intro hm
      rw [playSelect_playing s hm.1 (by rw [hm.2]; simp)]
      exact ⟨hm.1, rfl⟩
    · intro hm
      exact playSelect_recording s (by rw [hm.1]; simp)
  · intro hlow hhigh
    have hpress := INT1_vect_low pLow fuel s hf hlow
    have hrel : ∀ t, INT1_vect pHigh fuel2 t = some t :=
      fun t => INT1_vect_high pHigh fuel2 t hhigh
    refine ⟨hpress, hrel, ?_, ?_, ?_, ?_⟩
    · exact runOps_press_release (Op.int1 pLow fuel) (Op.int1 pHigh fuel2) recordSelect mid s
        hpress hrel
    · intro hm
      rw [recordSelect_idle s hm.1 hm.2]
      exact ⟨rfl, hm.2⟩
    · intro hm
      rw [recordSelect_recording s (by rw [hm.1]; simp) hm.2]
      exact ⟨rfl, hm.2⟩
    · intro hm
      exact recordSelect_playing s (by rw [hm.2]; simp)

theorem debounce_single_application_witness :
    1 ≤ 1 ∧ playPressed 0 &&& (1 <<< PORTD2) = 0 ∧ pinsReleased 0 &&& (1 <<< PORTD2) ≠ 0 ∧
    recPressed 0 &&& (1 <<< PORTD3) = 0 ∧ pinsReleased 0 &&& (1 <<< PORTD3) ≠ 0 ∧
    isIdle (initSystem resetState) ∧
    runOps (Op.int0 playPressed 1 ::
        ([Op.timerOvf, Op.timerOvf, Op.mainIter playPressed playPressed 0x08] ++
          [Op.int0 pinsReleased 1])) (initSystem resetState) =
      runOps [Op.timerOvf, Op.timerOvf, Op.mainIter playPressed playPressed 0x08]
        (playSelect (initSystem resetState)) ∧
    isPlaying (playSelect (initSystem resetState)) ∧
    isRecording (recordSelect (initSystem resetState)) :=
  ⟨by decide, by decide, by decide, by decide, by decide, by decide,
    ((debounce_single_application (initSystem resetState) playPressed pinsReleased 1 1
      [Op.timerOvf, Op.timerOvf, Op.mainIter playPressed playPressed 0x08] (by decide)).1
      (by decide) (by decide)).2.2.1,
    ((debounce_single_application (initSystem resetState) playPressed pinsReleased 1 1
      [] (by decide)).1 (by decide) (by decide)).2.2.2.1 (by decide),
    ((debounce_single_application (initSystem resetState) recPressed pinsReleased 1 1
      [] (by decide)).2 (by decide) (by decide)).2.2.2.1 (by decide)⟩

/-! ## Stop line -/

/-- C10 (stop line): a foreground stop poll that reads the stop line active
(PIND bit 4 set, the test PIND & (1 << PORTD4) of the source) performs from
Playing the stop transition of playSelect and from Recording the stop
transition of recordSelect, ending in Idle with the matching indicator bit of
PORTC cleared and the timer register TCCR1B zero, and leaves an Idle state
unchanged; a poll that reads the line inactive leaves every state
unchanged. -/
theorem stop_line (pind : Nat) (s : State) :
    (pind &&& (1 <<< PORTD4) ≠ 0 ↔ pind.testBit 4 = true) ∧
    (pind &&& (1 <<< PORTD4) ≠ 0 →
      (isPlaying s →
        stopPoll pind s = playSelect s ∧ isIdle (stopPoll pind s) ∧
        (stopPoll pind s).PORTC = s.PORTC &&& 0xF7 ∧
        (stopPoll pind s).PORTC &&& 0x08 = 0 ∧
        (stopPoll pind s).TCCR1B = 0) ∧
      (isRecording s →
        stopPoll pind s = recordSelect s ∧ isIdle (stopPoll pind s) ∧
        (stopPoll pind s).PORTC = s.PORTC &&& 0xFB ∧
        (stopPoll pind s).PORTC &&& 0x04 = 0 ∧
        (stopPoll pind s).TCCR1B = 0) ∧
      (isIdle s → stopPoll pind s = s)) ∧
    (pind &&& (1 <<< PORTD4) = 0 → stopPoll pind s = s) := by
  refine ⟨and_shift_ne_zero pind PORTD4, ?_, ?_⟩
  · intro hp
    refine ⟨?_, ?_, ?_⟩
    · intro hm
      have hpl : s.playing ≠ 0 := by rw [hm.2]; simp
      have e : stopPoll pind s = playSelect s := by
        unfold stopPoll
        rw [if_pos hp, if_pos hpl]
      rw [e, playSelect_playing s hm.1 hpl]
      exact ⟨rfl, ⟨hm.1, rfl⟩, rfl, and_mask_clear _ _ _ (by decide), rfl⟩
    · intro hm
      have hrc : s.recording ≠ 0 := by rw [hm.1]; simp
      have e : stopPoll pind s = recordSelect s := by
        unfold stopPoll
        rw [if_pos hp, if_neg (by rw [hm.2]; simp), if_pos hrc]
      rw [e, recordSelect_recording s hrc hm.2]
      exact ⟨rfl, ⟨rfl, hm.2⟩, rfl, and_mask_clear _ _ _ (by decide), rfl⟩
    · intro hm
      unfold stopPoll
      rw [if_pos hp, if_neg (by rw [hm.2]; simp), if_neg (by rw [hm.1]; simp)]
  · intro hp
    unfold stopPoll
    rw [if_neg (by rw [hp]; simp)]

theorem stop_line_witness :
    (0x10 : Nat) &&& (1 <<< PORTD4) ≠ 0 ∧ (0x0C : Nat) &&& (1 <<< PORTD4) = 0 ∧
    isPlaying playingState ∧ isRecording recordingState ∧ isIdle (initSystem resetState) ∧
    isIdle (stopPoll 0x10 playingState) ∧ isIdle (stopPoll 0x10 recordingState) ∧
    stopPoll 0x10 (initSystem resetState) = initSystem resetState ∧
    stopPoll 0x0C playingState = playingState :=
  ⟨by decide, by decide, by decide, by decide, by decide,
    (((stop_line 0x10 playingState).2.1 (by decide)).1 (by decide)).2.1,
    (((stop_line 0x10 recordingState).2.1 (by decide)).2.1 (by decide)).2.1,
    ((stop_line 0x10 (initSystem resetState)).2.1 (by decide)).2.2 (by decide),
    (stop_line 0x0C playingState).2.2 (by decide)⟩

/-! ## Key scanner -/

theorem scanRow_eq_frameOf (adc : Nat → Nat) :
    scanRow adc = frameOf (decide (50 ≤ adc 0)) (decide (50 ≤ adc 4)) (decide (50 ≤ adc 5))
      (decide (50 ≤ adc 6)) (decide (50 ≤ adc 7)) := by
  unfold scanRow readADC frameOf
  by_cases h0 : adc 0 < 50 <;> by_cases h4 : adc 4 < 50 <;> by_cases h5 : adc 5 < 50 <;>
    by_cases h6 : adc 6 < 50 <;> by_cases h7 : adc 7 < 50 <;>
    simp [h0, h4, h5, h6, h7, Nat.not_le.mpr, Nat.le_of_not_lt]

theorem frameOf_bits : ∀ c0 c1 c2 c3 c4 : Bool,
    (frameOf c0 c1 c2 c3 c4).testBit 0 = c0 ∧ (frameOf c0 c1 c2 c3 c4).testBit 1 = c1 ∧
    (frameOf c0 c1 c2 c3 c4).testBit 2 = c2 ∧ (frameOf c0 c1 c2 c3 c4).testBit 3 = c3 ∧
    (frameOf c0 c1 c2 c3 c4).testBit 4 = c4 ∧ frameOf c0 c1 c2 c3 c4 < 32 := by decide

theorem scanRow_bits (adc : Nat → Nat) :
    ((scanRow adc).testBit 0 = true ↔ 50 ≤ adc 0) ∧
    ((scanRow adc).testBit 1 = true ↔ 50 ≤ adc 4) ∧
    ((scanRow adc).testBit 2 = true ↔ 50 ≤ adc 5) ∧
    ((scanRow adc).testBit 3 = true ↔ 50 ≤ adc 6) ∧
    ((scanRow adc).testBit 4 = true ↔ 50 ≤ adc 7) := by
  obtain ⟨b0, b1, b2, b3, b4, -⟩ := frameOf_bits (decide (50 ≤ adc 0)) (decide (50 ≤ adc 4))
    (decide (50 ≤ adc 5)) (decide (50 ≤ adc 6)) (decide (50 ≤ adc 7))
  rw [scanRow_eq_frameOf, b0, b1, b2, b3, b4]
  simp

/-- C11 (KeyScanner encoding): for any five high-byte readings of channels
0, 4, 5, 6, 7, the frame a recording tick stores at song[songLength] is the
sum of 2^i over exactly those i in 0..4 whose channel (in the order 0, 4, 5,
6, 7) reads >= 50; bit i of the frame is set exactly when that channel reads
>= 50, so a reading below 50 leaves bit i clear; and the frame is < 32, all
bits from 5 up being zero. -/
theorem keyscanner_encoding (adc : Nat → Nat) :
    scanRow adc =
      (if 50 ≤ adc 0 then 2 ^ 0 else 0) + (if 50 ≤ adc 4 then 2 ^ 1 else 0) +
      (if 50 ≤ adc 5 then 2 ^ 2 else 0) + (if 50 ≤ adc 6 then 2 ^ 3 else 0) +
      (if 50 ≤ adc 7 then 2 ^ 4 else 0) ∧
    ((scanRow adc).testBit 0 = true ↔ 50 ≤ adc 0) ∧
    ((scanRow adc).testBit 1 = true ↔ 50 ≤ adc 4) ∧
    ((scanRow adc).testBit 2 = true ↔ 50 ≤ adc 5) ∧
    ((scanRow adc).testBit 3 = true ↔ 50 ≤ adc 6) ∧
    ((scanRow adc).testBit 4 = true ↔ 50 ≤ adc 7) ∧
    scanRow adc < 32 ∧
    (∀ i, 5 ≤ i → (scanRow adc).testBit i = false) ∧
    (∀ s : State, s.recording ≠ 0 → s.songLength ≠ MAX_SONG_LENGTH →
      (sampleTick adc s).1.song s.songLength = scanRow adc ∧
      (sampleTick adc s).2 = [Access.songWrite s.songLength (scanRow adc)]) := by
  obtain ⟨b0, b1, b2, b3, b4⟩ := scanRow_bits adc
  refine ⟨?_, b0, b1, b2, b3, b4, scanRow_lt adc, ?_, ?_⟩
  · rw [scanRow_eq_frameOf]
    unfold frameOf
    simp
  · intro i hi
    exact testBit_small_high _ i (scanRow_lt adc) hi
  · intro s hr hl
    rw [sampleTick_record adc s hr hl]
    simp

theorem keyscanner_encoding_witness :
    recordingState.recording ≠ 0 ∧ recordingState.songLength ≠ MAX_SONG_LENGTH ∧
    ((sampleTick key1Only recordingState).1.song recordingState.songLength =
        scanRow key1Only ∧
      (sampleTick key1Only recordingState).2 =
        [Access.songWrite recordingState.songLength (scanRow key1Only)]) :=
  ⟨by decide, by decide,
    (keyscanner_encoding key1Only).2.2.2.2.2.2.2.2 recordingState (by decide) (by decide)⟩

/-! ## Indicators and timebase without preemption inside a section -/

theorem testBit_three_iff (x : Nat) : x.testBit 3 = true ↔ x &&& 0x08 ≠ 0 :=
  (and_shift_ne_zero x 3).symm

theorem testBit_two_iff (x : Nat) : x.testBit 2 = true ↔ x &&& 0x04 ≠ 0 :=
  (and_shift_ne_zero x 2).symm

/-- Without preemption inside a section: in every state reached by steps each
run to completion, the play indicator bit (PORTC bit 3, mask 0x08) is set if
and only if playing == 1, and the record indicator bit (PORTC bit 2, mask
0x04) is set if and only if recording == 1. -/
theorem indicators_mirror_mode (s : State) (h : Reachable s) :
    (s.PORTC &&& 0x08 ≠ 0 ↔ s.playing = 1) ∧
    (s.PORTC &&& 0x04 ≠ 0 ↔ s.recording = 1) ∧
    (s.PORTC.testBit 3 = true ↔ s.playing = 1) ∧
    (s.PORTC.testBit 2 = true ↔ s.recording = 1) ∧
    (s.PORTC.testBit 3 = true ↔ isPlaying s) ∧
    (s.PORTC.testBit 2 = true ↔ isRecording s) := by
  obtain ⟨⟨f1, f2, f3⟩, l1, l2, -, -⟩ := ledsOk_of_reachable s h
  refine ⟨?_, ?_, l1, l2, ?_, ?_⟩
  · rw [← testBit_three_iff]; exact l1
  · rw [← testBit_two_iff]; exact l2
  · rw [l1]; unfold isPlaying; omega
  · rw [l2]; unfold isRecording; omega

theorem indicators_mirror_mode_witness :
    Reachable playingAtEnd ∧
    ((playingAtEnd.PORTC &&& 0x08 ≠ 0 ↔ playingAtEnd.playing = 1) ∧
    (playingAtEnd.PORTC &&& 0x04 ≠ 0 ↔ playingAtEnd.recording = 1) ∧
    (playingAtEnd.PORTC.testBit 3 = true ↔ playingAtEnd.playing = 1) ∧
    (playingAtEnd.PORTC.testBit 2 = true ↔ playingAtEnd.recording = 1) ∧
    (playingAtEnd.PORTC.testBit 3 = true ↔ isPlaying playingAtEnd) ∧
    (playingAtEnd.PORTC.testBit 2 = true ↔ isRecording playingAtEnd)) :=
  ⟨playingAtEnd_reachable, indicators_mirror_mode playingAtEnd playingAtEnd_reachable⟩

/-- Without preemption inside a section: in every state reached by steps each
run to completion, TCCR1B equals 0x02 if and only if the mode is Recording or
Playing and equals 0 if and only if the mode is Idle, it has no other value,
and this holds again after every further such step; in particular the forced
stop at buffer-full and the forced stop at empty-song set TCCR1B to 0, and
entering Recording or Playing from Idle sets it to 0x02. -/
theorem timebase_enablement (s : State) (h : Reachable s) :
    (s.TCCR1B = 0x02 ↔ (isRecording s ∨ isPlaying s)) ∧
    (s.TCCR1B = 0 ↔ isIdle s) ∧
    (s.TCCR1B = 0x02 ∨ s.TCCR1B = 0) ∧
    (∀ (op : Op) (s1 : State), op.apply s = some s1 →
      (s1.TCCR1B = 0x02 ↔ (isRecording s1 ∨ isPlaying s1)) ∧ (s1.TCCR1B = 0 ↔ isIdle s1)) ∧
    (∀ adc : Nat → Nat, isRecording s → s.songLength = MAX_SONG_LENGTH →
      isIdle (sampleTick adc s).1 ∧ (sampleTick adc s).1.TCCR1B = 0) ∧
    (∀ adc : Nat → Nat, isPlaying s → s.songLength = 0 →
      isIdle (sampleTick adc s).1 ∧ (sampleTick adc s).1.TCCR1B = 0) ∧
    (isIdle s → (recordSelect s).TCCR1B = 0x02 ∧ (playSelect s).TCCR1B = 0x02) := by
  have key : ∀ t : State, Reachable t →
      (t.TCCR1B = 0x02 ↔ (isRecording t ∨ isPlaying t)) ∧ (t.TCCR1B = 0 ↔ isIdle t) ∧
      (t.TCCR1B = 0x02 ∨ t.TCCR1B = 0) := by
    intro t ht
    obtain ⟨⟨f1, f2, f3⟩, -, -, l3, l4⟩ := ledsOk_of_reachable t ht
    unfold isRecording isPlaying isIdle
    refine ⟨?_, l4, ?_⟩
    · rw [l3]; omega
    · by_cases hz : t.recording = 0 ∧ t.playing = 0
      · exact Or.inr (l4.2 hz)
      · exact Or.inl (l3.2 (by omega))
  obtain ⟨k1, k2, k3⟩ := key s h
  refine ⟨k1, k2, k3, ?_, ?_, ?_, ?_⟩
  · intro op s1 hop
    obtain ⟨g1, g2, -⟩ := key s1 (Reachable.step op s s1 h hop)
    exact ⟨g1, g2⟩
  · intro adc hm hf
    have hi : isIdle (sampleTick adc s).1 := by
      obtain ⟨hr, hp⟩ := hm
      rw [sampleTick_record_full adc s (by omega) hf,
        recordSelect_recording { s with timer := 0 } (by simp; omega) hp]
      exact ⟨rfl, hp⟩
    exact ⟨hi, (key _ (Reachable.step (Op.sampleTick adc) s _ h rfl)).2.1.2 hi⟩
  · intro adc hm hl
    have hi : isIdle (sampleTick adc s).1 := by
      obtain ⟨hr, hp⟩ := hm
      rw [sampleTick_play_empty adc s hr (by omega) hl,
        playSelect_playing { s with timer := 0 } hr (by simp; omega)]
      exact ⟨hr, rfl⟩
    exact ⟨hi, (key _ (Reachable.step (Op.sampleTick adc) s _ h rfl)).2.1.2 hi⟩
  · intro hm
    rw [recordSelect_idle s hm.1 hm.2, playSelect_idle s hm.1 hm.2]
    exact ⟨rfl, rfl⟩

theorem timebase_enablement_witness :
    Reachable recordingState ∧ Reachable (initSystem resetState) ∧
    isIdle (initSystem resetState) ∧
    (recordingState.TCCR1B = 0x02 ↔ (isRecording recordingState ∨ isPlaying recordingState)) ∧
    (recordingState.TCCR1B = 0 ↔ isIdle recordingState) ∧
    ((recordSelect (initSystem resetState)).TCCR1B = 0x02 ∧
      (playSelect (initSystem resetState)).TCCR1B = 0x02) :=
  ⟨Reachable.step Op.recordSelect (initSystem resetState) _ (Reachable.init resetState) rfl,
    Reachable.init resetState, by decide,
    (timebase_enablement recordingState
      (Reachable.step Op.recordSelect (initSystem resetState) _
        (Reachable.init resetState) rfl)).1,
    (timebase_enablement recordingState
      (Reachable.step Op.recordSelect (initSystem resetState) _
        (Reachable.init resetState) rfl)).2.1,
    (timebase_enablement (initSystem resetState) (Reachable.init resetState)).2.2.2.2.2.2
      (by decide)⟩

/-! ## Tick gate -/

theorem timer_recordSelect (s : State) : (recordSelect s).timer = s.timer := by
  unfold recordSelect
  split_ifs <;> rfl

theorem timer_playSelect (s : State) : (playSelect s).timer = s.timer := by
  unfold playSelect
  split_ifs <;> rfl

theorem timer_sampleTick (adc : Nat → Nat) (s : State) : (sampleTick adc s).1.timer = 0 := by
  unfold sampleTick recordEngine playEngine
  simp only
  split_ifs
  · rw [timer_recordSelect]
  · rfl
  · rw [timer_playSelect]
  · rfl
  · rfl
  · rfl

theorem tickPoll_at_two (adc : Nat → Nat) (s : State) (h : s.timer = 2) :
    tickPoll adc s = sampleTick adc s := by
  unfold tickPoll
  rw [if_pos h]

theorem tickPoll_not_two (adc : Nat → Nat) (s : State) (h : s.timer ≠ 2) :
    tickPoll adc s = (s, []) := by
  unfold tickPoll
  rw [if_neg h]

/-- The passthrough and the stop poll leave `timer`, `song`, `songLength` and
`playCounter` alone. -/
theorem afterTick_keeps (adc : Nat → Nat) (pind : Nat) (s : State) :
    (stopPoll pind (livePassthrough adc s).1).timer = s.timer ∧
    (stopPoll pind (livePassthrough adc s).1).song = s.song ∧
    (stopPoll pind (livePassthrough adc s).1).songLength = s.songLength ∧
    (stopPoll pind (livePassthrough adc s).1).playCounter = s.playCounter := by
  have hl : (livePassthrough adc s).1.timer = s.timer ∧
      (livePassthrough adc s).1.song = s.song ∧
      (livePassthrough adc s).1.songLength = s.songLength ∧
      (livePassthrough adc s).1.playCounter = s.playCounter ∧
      (livePassthrough adc s).1.playing = s.playing ∧
      (livePassthrough adc s).1.recording = s.recording := by
    unfold livePassthrough
    split_ifs <;> exact ⟨rfl, rfl, rfl, rfl, rfl, rfl⟩
  obtain ⟨h1, h2, h3, h4, h5, h6⟩ := hl
  generalize (livePassthrough adc s).1 = u at h1 h2 h3 h4 h5 h6
  unfold stopPoll
  by_cases hp : pind &&& (1 <<< PORTD4) ≠ 0
  · rw [if_pos hp]
    by_cases hpl : u.playing ≠ 0
    · rw [if_pos hpl]
      by_cases hr : u.recording ≠ 0
      · rw [playSelect_recording u hr]
        exact ⟨h1, h2, h3, h4⟩
      · rw [playSelect_playing u (by simpa using hr) hpl]
        exact ⟨h1, h2, h3, h4⟩
    · rw [if_neg hpl]
      by_cases hr : u.recording ≠ 0
      · rw [if_pos hr, recordSelect_recording u hr (by simpa using hpl)]
        exact ⟨h1, h2, h3, h4⟩
      · rw [if_neg hr]
        exact ⟨h1, h2, h3, h4⟩
  · rw [if_neg hp]
    exact ⟨h1, h2, h3, h4⟩

theorem delayedState_reachable : Reachable delayedState := by
  have h0 := Reachable.init resetState
  have h1 := Reachable.step Op.recordSelect _ _ h0 rfl
  have h2 := Reachable.step Op.timerOvf _ _ h1 rfl
  have h3 := Reachable.step Op.timerOvf _ _ h2 rfl
  exact Reachable.step Op.timerOvf _ _ h3 rfl

/-- C14, the claim as stated fails: in the reachable Recording state whose
TickCounter has reached 3 before the poll, the foreground iteration fires no
sample tick (no frame is stored, nothing is accessed by the tick section) and
leaves TickCounter at 3, whereas a sample tick in that state would store a
frame and reset TickCounter. -/
theorem tick_coalescing_counterexample :
    Reachable delayedState ∧ isRecording delayedState ∧ delayedState.timer = 3 ∧
    tickPoll key1Only delayedState = (delayedState, []) ∧
    (mainIter key1Only key1Only 0x0C delayedState).1.timer = 3 ∧
    (mainIter key1Only key1Only 0x0C delayedState).1.songLength = 0 ∧
    (sampleTick key1Only delayedState).1.songLength = 1 ∧
    (sampleTick key1Only delayedState).1.timer = 0 := by
  refine ⟨delayedState_reachable, by decide, by decide, ?_, by decide, by decide, by decide,
    by decide⟩
  exact tickPoll_not_two key1Only delayedState (by decide)

/-- C14 (tick coalescing, amended): a foreground iteration that polls
TickCounter at exactly 2 fires exactly one sample tick and resets TickCounter
to 0; an iteration that polls any other value, in particular a value above 2
such as 3 after a delay, fires no sample tick, accesses nothing in its tick
section, and leaves TickCounter, the song, songLength and playCounter
unchanged, so overflows beyond the second are neither queued nor merged
into a tick. -/
theorem tick_gate_exact (adcT adcL : Nat → Nat) (pind : Nat) (s : State) :
    (s.timer = 2 →
      tickPoll adcT s = sampleTick adcT s ∧
      (tickPoll adcT s).1.timer = 0 ∧
      (mainIter adcT adcL pind s).1.timer = 0) ∧
    (s.timer ≠ 2 → tickPoll adcT s = (s, [])) ∧
    (2 < s.timer →
      tickPoll adcT s = (s, []) ∧
      (mainIter adcT adcL pind s).1.timer = s.timer ∧
      (mainIter adcT adcL pind s).1.song = s.song ∧
      (mainIter adcT adcL pind s).1.songLength = s.songLength ∧
      (mainIter adcT adcL pind s).1.playCounter = s.playCounter) := by
  refine ⟨?_, tickPoll_not_two adcT s, ?_⟩
  · intro h
    have e := tickPoll_at_two adcT s h
    refine ⟨e, by rw [e, timer_sampleTick], ?_⟩
    unfold mainIter
    simp only
    rw [(afterTick_keeps adcL pind _).1, e, timer_sampleTick]
  · intro h
    have e := tickPoll_not_two adcT s (by omega)
    refine ⟨e, ?_⟩
    unfold mainIter
    simp only
    rw [e]
    exact afterTick_keeps adcL pind s

theorem tick_gate_exact_witness :
    (TIMER1_OVF_vect (TIMER1_OVF_vect recordingState)).timer = 2 ∧
    delayedState.timer ≠ 2 ∧ 2 < delayedState.timer ∧
    (tickPoll key1Only (TIMER1_OVF_vect (TIMER1_OVF_vect recordingState))).1.timer = 0 ∧
    tickPoll key1Only delayedState = (delayedState, []) ∧
    (mainIter key1Only key1Only 0x0C delayedState).1.timer = delayedState.timer :=
  ⟨by decide, by decide, by decide,
    ((tick_gate_exact key1Only key1Only 0x0C
      (TIMER1_OVF_vect (TIMER1_OVF_vect recordingState))).1 (by decide)).2.1,
    (tick_gate_exact key1Only key1Only 0x0C delayedState).2.1 (by decide),
    ((tick_gate_exact key1Only key1Only 0x0C delayedState).2.2 (by decide)).2.1⟩

/-- C15 (rate divider): the timer-overflow handler changes only TickCounter,
to (TickCounter + 1) mod 256; the tick section of a foreground iteration is
one sample tick when TickCounter == 2 at the poll, after which TickCounter is
0, and does nothing otherwise; with TickCounter 0 or 1 the whole iteration
leaves TickCounter, song, songLength and playCounter unchanged; from
TickCounter == 0 a poll after one overflow fires nothing, a poll after two
overflows is exactly one sample tick, and the poll after that fires nothing;
and a sample tick runs the record engine once when recording is set,
otherwise the playback engine once when playing is set, otherwise neither. -/
theorem rate_divider (adcT adcL : Nat → Nat) (pind : Nat) (s : State) :
    TIMER1_OVF_vect s = { s with timer := (s.timer + 1) % 256 } ∧
    (s.timer = 2 →
      tickPoll adcT s = sampleTick adcT s ∧
      (tickPoll adcT s).1.timer = 0 ∧
      (mainIter adcT adcL pind s).1.timer = 0) ∧
    (s.timer ≠ 2 → tickPoll adcT s = (s, [])) ∧
    (s.timer = 0 ∨ s.timer = 1 →
      (mainIter adcT adcL pind s).1.timer = s.timer ∧
      (mainIter adcT adcL pind s).1.song = s.song ∧
      (mainIter adcT adcL pind s).1.songLength = s.songLength ∧
      (mainIter adcT adcL pind s).1.playCounter = s.playCounter) ∧
    (s.timer = 0 →
      tickPoll adcT (TIMER1_OVF_vect s) = (TIMER1_OVF_vect s, []) ∧
      tickPoll adcT (TIMER1_OVF_vect (TIMER1_OVF_vect s)) =
        sampleTick adcT (TIMER1_OVF_vect (TIMER1_OVF_vect s)) ∧
      tickPoll adcL (tickPoll adcT (TIMER1_OVF_vect (TIMER1_OVF_vect s))).1 =
        ((tickPoll adcT (TIMER1_OVF_vect (TIMER1_OVF_vect s))).1, [])) ∧
    ((s.recording ≠ 0 ∧ sampleTick adcT s = recordEngine adcT { s with timer := 0 }) ∨
      (s.recording = 0 ∧ s.playing ≠ 0 ∧ sampleTick adcT s = playEngine { s with timer := 0 }) ∨
      (s.recording = 0 ∧ s.playing = 0 ∧ sampleTick adcT s = ({ s with timer := 0 }, []))) := by
  refine ⟨rfl, ?_, tickPoll_not_two adcT s, ?_, ?_, ?_⟩
  · intro h
    have e := tickPoll_at_two adcT s h
    refine ⟨e, by rw [e, timer_sampleTick], ?_⟩
    unfold mainIter
    simp only
    rw [(afterTick_keeps adcL pind _).1, e, timer_sampleTick]
  · intro h
    have e := tickPoll_not_two adcT s (by omega)
    unfold mainIter
    simp only
    rw [e]
    exact afterTick_keeps adcL pind s
  · intro h
    have t1 : (TIMER1_OVF_vect s).timer = 1 := by
      show (s.timer + 1) % 256 = 1
      rw [h]
    have t2 : (TIMER1_OVF_vect (TIMER1_OVF_vect s)).timer = 2 := by
      show ((TIMER1_OVF_vect s).timer + 1) % 256 = 2
      rw [t1]
    have e2 := tickPoll_at_two adcT _ t2
    refine ⟨tickPoll_not_two adcT _ (by rw [t1]; decide), e2, ?_⟩
    apply tickPoll_not_two
    rw [e2, timer_sampleTick]
    decide
  · by_cases hr : s.recording = 0
    · by_cases hp : s.playing = 0
      · exact Or.inr (Or.inr ⟨hr, hp, sampleTick_idle adcT s hr hp⟩)
      · refine Or.inr (Or.inl ⟨hr, hp, ?_⟩)
        unfold sampleTick
        simp [hr, hp]
    · refine Or.inl ⟨hr, ?_⟩
      unfold sampleTick
      simp [hr]

theorem rate_divider_witness :
    (TIMER1_OVF_vect (TIMER1_OVF_vect recordingState)).timer = 2 ∧
    delayedState.timer ≠ 2 ∧ (recordingState.timer = 0 ∨ recordingState.timer = 1) ∧
    recordingState.timer = 0 ∧
    (tickPoll key1Only (TIMER1_OVF_vect (TIMER1_OVF_vect recordingState))).1.timer = 0 ∧
    tickPoll key1Only delayedState = (delayedState, []) ∧
    (mainIter key1Only key1Only 0x0C recordingState).1.songLength =
      recordingState.songLength ∧
    tickPoll key1Only (TIMER1_OVF_vect (TIMER1_OVF_vect recordingState)) =
      sampleTick key1Only (TIMER1_OVF_vect (TIMER1_OVF_vect recordingState)) :=
  ⟨by decide, by decide, by decide, by decide,
    ((rate_divider key1Only key1Only 0x0C
      (TIMER1_OVF_vect (TIMER1_OVF_vect recordingState))).2.1 (by decide)).2.1,
    (rate_divider key1Only key1Only 0x0C delayedState).2.2.1 (by decide),
    ((rate_divider key1Only key1Only 0x0C recordingState).2.2.2.1 (by decide)).2.2.1,
    ((rate_divider key1Only key1Only 0x0C recordingState).2.2.2.2.1 (by decide)).2.1⟩

/-! ## Debounce wait -/

/-- C16, evaluation at the failing inputs: whichever level the line shows
after the handler was entered with the line read low, the loop of the handler
ends at its first read and the handler returns after playSelect.  With the
play line read low at every read, and with it read high at every read after
the first, the INT0 handler run from the Idle state after initSystem makes
one loop read and returns; the same for the INT1 handler and the record line;
the loop test, a masked byte compared with 1, holds for no byte. -/
theorem debounce_wait_returns_at_once :
    (∀ k, playPressed k &&& (1 <<< PORTD2) = 0) ∧
    busyWait (1 <<< PORTD2) playPressed 1 1 = some 2 ∧
    INT0_vect playPressed 1 (initSystem resetState) =
      some (playSelect (initSystem resetState)) ∧
    lineHighAfterEntry 0 &&& (1 <<< PORTD2) = 0 ∧
    (∀ k, lineHighAfterEntry (k + 1) &&& (1 <<< PORTD2) ≠ 0) ∧
    busyWait (1 <<< PORTD2) lineHighAfterEntry 1 1 = some 2 ∧
    INT0_vect lineHighAfterEntry 1 (initSystem resetState) =
      some (playSelect (initSystem resetState)) ∧
    (∀ k, recPressed k &&& (1 <<< PORTD3) = 0) ∧
    busyWait (1 <<< PORTD3) recPressed 1 1 = some 2 ∧
    INT1_vect recPressed 1 (initSystem resetState) =
      some (recordSelect (initSystem resetState)) ∧
    lineHighAfterEntry 0 &&& (1 <<< PORTD3) = 0 ∧
    (∀ k, lineHighAfterEntry (k + 1) &&& (1 <<< PORTD3) ≠ 0) ∧
    busyWait (1 <<< PORTD3) lineHighAfterEntry 1 1 = some 2 ∧
    INT1_vect lineHighAfterEntry 1 (initSystem resetState) =
      some (recordSelect (initSystem resetState)) ∧
    (∀ x : Nat, x &&& (1 <<< PORTD2) ≠ 1 ∧ x &&& (1 <<< PORTD3) ≠ 1) := by
  have hp : (0x08 : Nat) &&& (1 <<< PORTD2) = 0 := by decide
  have hr : (0x04 : Nat) &&& (1 <<< PORTD3) = 0 := by decide
  have h2 : (0x0C : Nat) &&& (1 <<< PORTD2) ≠ 0 := by decide
  have h3 : (0x0C : Nat) &&& (1 <<< PORTD3) ≠ 0 := by decide
  refine ⟨fun _ => hp, by decide, ?_, by decide, fun _ => h2, by decide, ?_,
    fun _ => hr, by decide, ?_, by decide, fun _ => h3, by decide, ?_, ?_⟩
  · exact INT0_vect_low playPressed 1 _ (le_refl _) (by decide)
  · exact INT0_vect_low lineHighAfterEntry 1 _ (le_refl _) (by decide)
  · exact INT1_vect_low recPressed 1 _ (le_refl _) (by decide)
  · exact INT1_vect_low lineHighAfterEntry 1 _ (le_refl _) (by decide)
  · intro x
    exact ⟨and_shift_ne_one x PORTD2 (by decide), and_shift_ne_one x PORTD3 (by decide)⟩

/-! ## Live passthrough -/

theorem readADC_ne_zero (adc : Nat → Nat) (ch : Nat) : readADC adc ch ≠ 0 ↔ adc ch < 50 := by
  unfold readADC
  split_ifs with h <;> simp [h]

theorem testBit_mirrorLine (adc : Nat → Nat) (ch set clr p i : Nat) :
    (mirrorLine adc ch set clr p).testBit i =
      if 50 ≤ adc ch then (p.testBit i || set.testBit i)
      else (p.testBit i && clr.testBit i) := by
  unfold mirrorLine
  simp only [readADC_ne_zero]
  by_cases h : adc ch < 50
  · rw [if_pos h, if_neg (by omega), Nat.testBit_and]
  · rw [if_neg h, if_pos (by omega), Nat.testBit_or]

theorem maskBitsHigh :
    ∀ j < 8, 5 ≤ j →
      (∀ c ∈ [0x10, 0x08, 0x04, 0x02, 0x01], Nat.testBit c j = false) ∧
      (∀ c ∈ [0xEF, 0xF7, 0xFB, 0xFD, 0xFE], Nat.testBit c j = true) := by decide

theorem liveOut_bits (adc : Nat → Nat) (p : Nat) :
    ((liveOut adc p).testBit 0 = true ↔ 50 ≤ adc 0) ∧
    ((liveOut adc p).testBit 1 = true ↔ 50 ≤ adc 4) ∧
    ((liveOut adc p).testBit 2 = true ↔ 50 ≤ adc 5) ∧
    ((liveOut adc p).testBit 3 = true ↔ 50 ≤ adc 6) ∧
    ((liveOut adc p).testBit 4 = true ↔ 50 ≤ adc 7) := by
  unfold liveOut
  simp only [testBit_mirrorLine]
  refine ⟨?_, ?_, ?_, ?_, ?_⟩ <;> simp [maskBits]

theorem liveOut_high (adc : Nat → Nat) (p i : Nat) (h5 : 5 ≤ i) (h8 : i < 8) :
    (liveOut adc p).testBit i = p.testBit i := by
  unfold liveOut
  simp only [testBit_mirrorLine]
  obtain ⟨hs, hc⟩ := maskBitsHigh i h8 h5
  simp [hs, hc]

theorem livePassthrough_port (adc : Nat → Nat) (s : State) (h : s.playing = 0) :
    (livePassthrough adc s).1 = { s with PORTB := liveOut adc s.PORTB } := by
  unfold livePassthrough liveOut
  simp [h]

theorem playOut_bit (b p i : Nat) (hi : i < 5) : (playOut b p).testBit i = b.testBit i := by
  have h := congrArg (fun x => x.testBit i) (playOut_low b p)
  simp only [Nat.testBit_and] at h
  have h31 : Nat.testBit 0x1f i = true := by interval_cases i <;> decide
  simpa [h31] using h

theorem liveOut_low (adc : Nat → Nat) (p : Nat) : liveOut adc p &&& 0x1f = scanRow adc := by
  obtain ⟨a0, a1, a2, a3, a4⟩ := liveOut_bits adc p
  obtain ⟨b0, b1, b2, b3, b4⟩ := scanRow_bits adc
  apply Nat.eq_of_testBit_eq
  intro i
  rw [Nat.testBit_and]
  by_cases hi : i < 5
  · have h31 : Nat.testBit 0x1f i = true := by interval_cases i <;> decide
    rw [h31, Bool.and_true, Bool.eq_iff_iff]
    interval_cases i
    · exact a0.trans b0.symm
    · exact a1.trans b1.symm
    · exact a2.trans b2.symm
    · exact a3.trans b3.symm
    · exact a4.trans b4.symm
  · rw [testBit_small_high 0x1f i (by norm_num) (by omega),
      testBit_small_high _ i (scanRow_lt adc) (by omega)]
    simp

/-- C17, the claim as stated fails: in the Idle state after initSystem, with
key1 pressed (channel 0 reads 200 >= 50) the passthrough drives output line 0
high, not low, which is the level the playback engine drives for the stored
frame of that scan; and with key2 released the passthrough drives line 1
low, not high. -/
theorem passthrough_polarity_counterexample :
    isIdle (initSystem resetState) ∧ 50 ≤ key1Only 0 ∧ key1Only 4 < 50 ∧
    (initSystem resetState).PORTB.testBit 0 = false ∧
    (livePassthrough key1Only (initSystem resetState)).1.PORTB.testBit 0 = true ∧
    (scanRow key1Only).testBit 0 = true ∧
    (playOut (scanRow key1Only) (initSystem resetState).PORTB).testBit 0 = true ∧
    (livePassthrough key1Only
      { initSystem resetState with PORTB := 0x1f }).1.PORTB.testBit 1 = false := by
  decide

/-- C17 (live passthrough polarity, amended): in a foreground iteration with
mode not Playing (playing == 0), for each key i in 0..4 the output line i
(PORTB bit i) is driven high when the key is pressed (high byte >= 50) and
low when it is released, so that PORTB & 0x1f is the frame the recorder would
store for the same readings, i.e. line i has the same level the playback
engine drives for a stored frame whose bit i records that key as pressed;
PORTB bits 5..7 are unchanged, and nothing but PORTB changes. -/
theorem passthrough_polarity (adc : Nat → Nat) (s : State) (h : s.playing = 0) :
    ((livePassthrough adc s).1.PORTB.testBit 0 = true ↔ 50 ≤ adc 0) ∧
    ((livePassthrough adc s).1.PORTB.testBit 1 = true ↔ 50 ≤ adc 4) ∧
    ((livePassthrough adc s).1.PORTB.testBit 2 = true ↔ 50 ≤ adc 5) ∧
    ((livePassthrough adc s).1.PORTB.testBit 3 = true ↔ 50 ≤ adc 6) ∧
    ((livePassthrough adc s).1.PORTB.testBit 4 = true ↔ 50 ≤ adc 7) ∧
    (livePassthrough adc s).1.PORTB &&& 0x1f = scanRow adc ∧
    (∀ p i, i < 5 →
      (playOut (scanRow adc) p).testBit i = (livePassthrough adc s).1.PORTB.testBit i) ∧
    (∀ i, 5 ≤ i → i < 8 →
      (livePassthrough adc s).1.PORTB.testBit i = s.PORTB.testBit i) ∧
    (livePassthrough adc s).1 = { s with PORTB := (livePassthrough adc s).1.PORTB } := by
  rw [livePassthrough_port adc s h]
  obtain ⟨a0, a1, a2, a3, a4⟩ := liveOut_bits adc s.PORTB
  refine ⟨a0, a1, a2, a3, a4, liveOut_low adc s.PORTB, ?_, ?_, rfl⟩
  · intro p i hi
    rw [playOut_bit _ p i hi]
    have e := congrArg (fun x => x.testBit i) (liveOut_low adc s.PORTB)
    simp only [Nat.testBit_and] at e
    have h31 : Nat.testBit 0x1f i = true := by interval_cases i <;> decide
    rw [h31, Bool.and_true] at e
    exact e.symm
  · intro i h5 h8
    exact liveOut_high adc s.PORTB i h5 h8

theorem passthrough_polarity_witness :
    (initSystem resetState).playing = 0 ∧
    ((livePassthrough key1Only (initSystem resetState)).1.PORTB.testBit 0 = true ↔
      50 ≤ key1Only 0) ∧
    (livePassthrough key1Only (initSystem resetState)).1.PORTB &&& 0x1f = scanRow key1Only :=
  ⟨by decide,
    (passthrough_polarity key1Only (initSystem resetState) (by decide)).1,
    (passthrough_polarity key1Only (initSystem resetState) (by decide)).2.2.2.2.2.1⟩

/-! ## Cursor -/

theorem cursorOk_recordSelect (s : State) (h : CursorOk s) : CursorOk (recordSelect s) := by
  obtain ⟨hf, hl, hc⟩ := h
  refine ⟨flagsOk_recordSelect s hf, songLength_recordSelect_le s hl, ?_⟩
  by_cases hp : s.playing ≠ 0
  · rw [recordSelect_playing s hp]; exact hc
  · intro hp2
    exfalso
    apply hp2
    have hp0 : s.playing = 0 := by simpa using hp
    unfold recordSelect
    split_ifs <;> exact hp0

theorem cursorOk_playSelect (s : State) (h : CursorOk s) : CursorOk (playSelect s) := by
  obtain ⟨hf, hl, hc⟩ := h
  refine ⟨flagsOk_playSelect s hf, by rw [songLength_playSelect]; exact hl, ?_⟩
  by_cases hr : s.recording ≠ 0
  · rw [playSelect_recording s hr]; exact hc
  · have hr0 : s.recording = 0 := by simpa using hr
    by_cases hp : s.playing = 0
    · rw [playSelect_idle s hr0 hp]
      intro _
      exact Nat.zero_le _
    · rw [playSelect_playing s hr0 hp]
      intro hp2
      exact absurd rfl hp2

theorem cursorOk_sampleTick (adc : Nat → Nat) (s : State) (h : CursorOk s) :
    CursorOk (sampleTick adc s).1 := by
  have ht : CursorOk { s with timer := 0 } := h
  obtain ⟨hf, hl, hc⟩ := h
  have hl2 : s.songLength ≤ 1400 := hl
  by_cases hr : s.recording = 0
  · by_cases hp : s.playing = 0
    · rw [sampleTick_idle adc s hr hp]; exact ht
    · by_cases hz : s.songLength = 0
      · rw [sampleTick_play_empty adc s hr hp hz]
        exact cursorOk_playSelect _ ht
      · by_cases hw : s.playCounter = s.songLength
        · rw [sampleTick_play_wrap adc s hr hp hz hw]
          exact ⟨hf, hl, fun _ => Nat.zero_le _⟩
        · rw [(sampleTick_play_out adc s hr hp hz hw).1]
          refine ⟨hf, hl, fun _ => ?_⟩
          have := hc hp
          show (s.playCounter + 1) % 65536 ≤ s.songLength
          omega
  · by_cases hfull : s.songLength = MAX_SONG_LENGTH
    · rw [sampleTick_record_full adc s hr hfull]
      exact cursorOk_recordSelect _ ht
    · rw [sampleTick_record adc s hr hfull]
      obtain ⟨f1, f2, f3⟩ := hf
      have hp0 : s.playing = 0 := by omega
      have hne : s.songLength ≠ 1400 := hfull
      refine ⟨⟨f1, f2, f3⟩, ?_, fun hp2 => absurd hp0 hp2⟩
      show (s.songLength + 1) % 65536 ≤ 1400
      omega

theorem cursorOk_livePassthrough (adc : Nat → Nat) (s : State) (h : CursorOk s) :
    CursorOk (livePassthrough adc s).1 := by
  unfold livePassthrough
  split_ifs <;> exact h

/-- In every reachable state the cursor is within the song while playing. -/
theorem cursorOk_of_reachable (s : State) (h : Reachable s) : CursorOk s := by
  refine reachable_induct CursorOk ?_ cursorOk_recordSelect cursorOk_playSelect
    cursorOk_sampleTick cursorOk_livePassthrough ?_ s h
  · intro s0
    refine ⟨by simp [FlagsOk, initSystem], by simp [initSystem], ?_⟩
    intro hp
    exact absurd rfl hp
  · intro s hs
    exact hs

theorem staleCursorState_reachable : Reachable staleCursorState := by
  have h1 := Reachable.step Op.playSelect _ _ playingAtEnd_reachable rfl
  exact Reachable.step Op.recordSelect _ _ h1 rfl

/-- C18, the claim as stated fails: the state reached by recording one frame,
playing it for one tick, stopping playback and starting a new take is
reachable, has mode Recording, and has playCounter == 1 with songLength == 0,
so playCounter <= songLength does not hold there; the run staleCursorRun of
the program, in which the handlers are served between two sections of the
foreground, ends with the same flags, cursor and length. -/
theorem cursor_invariant_counterexample :
    Reachable staleCursorState ∧ isRecording staleCursorState ∧
    staleCursorState.playCounter = 1 ∧ staleCursorState.songLength = 0 ∧
    ¬ (staleCursorState.playCounter ≤ staleCursorState.songLength) ∧
    (runMicro staleCursorRun (startConfig resetState)).map
      (fun c => (c.pc, c.s.recording, c.s.playing, c.s.playCounter, c.s.songLength)) =
        some (Pc.L219, 1, 0, 1, 0) ∧
    (∀ c, runMicro staleCursorRun (startConfig resetState) = some c → PReachable c) :=
  ⟨staleCursorState_reachable, by decide, by decide, by decide, by decide, by decide,
    fun c h => preachable_runMicro staleCursorRun _ c (PReachable.init resetState) h⟩

/-- Every step run to completion keeps a property that the two transport
functions, a sample tick, the passthrough and the overflow handler keep. -/
theorem op_preserves (P : State → Prop)
    (hrec : ∀ s, P s → P (recordSelect s))
    (hplay : ∀ s, P s → P (playSelect s))
    (htick : ∀ adc s, P s → P (sampleTick adc s).1)
    (hlive : ∀ adc s, P s → P (livePassthrough adc s).1)
    (hovf : ∀ s, P s → P (TIMER1_OVF_vect s))
    (op : Op) (s s1 : State) (hs : P s) (hop : op.apply s = some s1) : P s1 := by
  have hstop : ∀ pind u, P u → P (stopPoll pind u) := by
    intro pind u hu
    rcases stopPoll_cases pind u with h | h | h <;> rw [h]
    · exact hu
    · exact hplay u hu
    · exact hrec u hu
  have hpoll : ∀ adc u, P u → P (tickPoll adc u).1 := by
    intro adc u hu
    rcases tickPoll_cases adc u with h | h <;> rw [h]
    · exact hu
    · exact htick adc u hu
  cases op with
  | recordSelect => simp [Op.apply] at hop; rw [← hop]; exact hrec s hs
  | playSelect => simp [Op.apply] at hop; rw [← hop]; exact hplay s hs
  | sampleTick adc => simp [Op.apply] at hop; rw [← hop]; exact htick adc s hs
  | tickPoll adc => simp [Op.apply] at hop; rw [← hop]; exact hpoll adc s hs
  | livePassthrough adc => simp [Op.apply] at hop; rw [← hop]; exact hlive adc s hs
  | stopPoll pind => simp [Op.apply] at hop; rw [← hop]; exact hstop pind s hs
  | mainIter adcT adcL pind =>
    simp [Op.apply, mainIter] at hop
    rw [← hop]
    exact hstop _ _ (hlive _ _ (hpoll _ _ hs))
  | int0 pind fuel =>
    rcases INT0_vect_cases pind fuel s s1 hop with h | h <;> rw [h]
    · exact hs
    · exact hplay s hs
  | int1 pind fuel =>
    rcases INT1_vect_cases pind fuel s s1 hop with h | h <;> rw [h]
    · exact hs
    · exact hrec s hs
  | timerOvf => simp [Op.apply] at hop; rw [← hop]; exact hovf s hs

/-- C18 (cursor invariant, amended): the property that the flags are 0 or 1
and not both 1, that songLength <= 1400, and that playing set implies
0 <= playCounter <= songLength holds after initSystem and is kept by every
step run to completion (recordSelect, playSelect, a sample tick, the tick
section, the passthrough, the stop poll, a whole foreground iteration, the edge
handlers, the overflow handler); hence in every state reached by runs in
which no handler is served inside a section of the foreground loop, whenever
the mode is Playing, 0 <= playCounter <= songLength; a PlayEdge that enters
Playing resets the cursor to 0, and the start of a take resets songLength but
not the cursor. -/
theorem cursor_invariant_playing :
    (∀ s0 : State, CursorOk (initSystem s0)) ∧
    (∀ (s : State) (op : Op) (s1 : State), CursorOk s → op.apply s = some s1 → CursorOk s1) ∧
    (∀ s : State, CursorOk s → s.playing ≠ 0 → 0 ≤ s.playCounter ∧ s.playCounter ≤ s.songLength) ∧
    (∀ s : State, Reachable s →
      (s.playing ≠ 0 → 0 ≤ s.playCounter ∧ s.playCounter ≤ s.songLength) ∧
      (isPlaying s → 0 ≤ s.playCounter ∧ s.playCounter ≤ s.songLength)) ∧
    (∀ s : State, isIdle s → (playSelect s).playCounter = 0 ∧
      (recordSelect s).songLength = 0 ∧ (recordSelect s).playCounter = s.playCounter) := by
  refine ⟨?_, ?_, ?_, ?_, ?_⟩
  · intro s0
    refine ⟨by simp [FlagsOk, initSystem], by simp [initSystem], ?_⟩
    intro hp
    exact absurd rfl hp
  · intro s op s1 hs hop
    exact op_preserves CursorOk cursorOk_recordSelect cursorOk_playSelect cursorOk_sampleTick
      cursorOk_livePassthrough (fun u hu => hu) op s s1 hs hop
  · intro s hs hp
    exact ⟨Nat.zero_le _, hs.2.2 hp⟩
  · intro s h
    obtain ⟨-, -, hc⟩ := cursorOk_of_reachable s h
    refine ⟨fun hp => ⟨Nat.zero_le _, hc hp⟩, fun hm => ⟨Nat.zero_le _, hc ?_⟩⟩
    rw [hm.2]; simp
  · intro s hm
    rw [playSelect_idle s hm.1 hm.2, recordSelect_idle s hm.1 hm.2]
    exact ⟨rfl, rfl, rfl⟩

theorem cursor_invariant_playing_witness :
    CursorOk (initSystem resetState) ∧
    Op.apply Op.playSelect (initSystem resetState) = some playingState ∧
    Reachable playingAtEnd ∧ playingAtEnd.playing ≠ 0 ∧ isPlaying playingAtEnd ∧
    isIdle (initSystem resetState) ∧
    CursorOk playingState ∧
    (0 ≤ playingAtEnd.playCounter ∧ playingAtEnd.playCounter ≤ playingAtEnd.songLength) ∧
    (playSelect (initSystem resetState)).playCounter = 0 :=
  ⟨cursor_invariant_playing.1 resetState, rfl, playingAtEnd_reachable, by decide, by decide,
    by decide,
    cursor_invariant_playing.2.1 (initSystem resetState) Op.playSelect playingState
      (cursor_invariant_playing.1 resetState) rfl,
    (cursor_invariant_playing.2.2.2.1 playingAtEnd playingAtEnd_reachable).1 (by decide),
    (cursor_invariant_playing.2.2.2.2 (initSystem resetState) (by decide)).1⟩

/-- With preemption the cursor bound fails also while Playing: the run
raceCursorBeyond of the program, in which four edge handlers are served
inside a playback tick after the test of line 205, ends in mode Playing with
playCounter == 1 and songLength == 0. -/
theorem cursor_beyond_by_preemption :
    (runMicro raceCursorBeyond (startConfig resetState)).map
      (fun c => (c.pc, c.s.recording, c.s.playing, c.s.playCounter, c.s.songLength)) =
        some (Pc.L219, 0, 1, 1, 0) ∧
    (∀ c, runMicro raceCursorBeyond (startConfig resetState) = some c → PReachable c) :=
  ⟨by decide,
    fun c h => preachable_runMicro raceCursorBeyond _ c (PReachable.init resetState) h⟩

/-! ## Stale reads -/

theorem sampleTick_playing_song (adc : Nat → Nat) (s : State) (hm : isPlaying s) :
    (sampleTick adc s).1.songLength = s.songLength ∧ (sampleTick adc s).1.song = s.song := by
  by_cases hz : s.songLength = 0
  · rw [sampleTick_play_empty adc s hm.1 (by rw [hm.2]; simp) hz, songLength_playSelect,
      song_playSelect]
    exact ⟨rfl, rfl⟩
  · obtain ⟨-, g2, g3, -⟩ := sampleTick_playing_stays adc s hm (by omega)
    exact ⟨g2, g3⟩

theorem read_in_song (adc : Nat → Nat) (s : State) (h : CursorOk s) (i : Nat)
    (hi : Access.songRead i ∈ (sampleTick adc s).2) :
    i = s.playCounter ∧ i < s.songLength ∧ s.songLength ≤ MAX_SONG_LENGTH := by
  obtain ⟨-, hl, hc⟩ := h
  by_cases hr : s.recording = 0
  · by_cases hp : s.playing = 0
    · rw [sampleTick_idle adc s hr hp] at hi
      simp at hi
    · by_cases hz : s.songLength = 0
      · rw [sampleTick_play_empty adc s hr hp hz] at hi
        simp at hi
      · by_cases hw : s.playCounter = s.songLength
        · rw [sampleTick_play_wrap adc s hr hp hz hw] at hi
          simp at hi
        · rcases (sampleTick_play_out adc s hr hp hz hw).2.1 _ hi with e | ⟨v, e⟩
          · injection e with e
            have := hc hp
            exact ⟨e, by omega, hl⟩
          · cases e
  · by_cases hfull : s.songLength = MAX_SONG_LENGTH
    · rw [sampleTick_record_full adc s hr hfull] at hi
      simp at hi
    · rw [sampleTick_record adc s hr hfull] at hi
      simp at hi

/-- Without preemption inside a section: in every state reached by steps each
run to completion, every read song[i] made by a sample tick that runs to
completion has i == playCounter with playCounter < songLength <= 1400; and in
a state with mode Playing every step run to completion (either transport
function, sample tick, tick poll, passthrough, stop poll, whole iteration,
edge handler, overflow handler) leaves songLength and the song unchanged. -/
theorem no_stale_reads (s : State) :
    (Reachable s → ∀ (adc : Nat → Nat) (i : Nat),
      Access.songRead i ∈ (sampleTick adc s).2 →
        i = s.playCounter ∧ s.playCounter < s.songLength ∧ s.songLength ≤ 1400) ∧
    (isPlaying s → ∀ (op : Op) (s1 : State), op.apply s = some s1 →
      s1.songLength = s.songLength ∧ s1.song = s.song) := by
  constructor
  · intro h adc i hi
    obtain ⟨e, h1, h2⟩ := read_in_song adc s (cursorOk_of_reachable s h) i hi
    exact ⟨e, by rw [← e]; exact h1, h2⟩
  · intro hm op s1 hop
    have hpl : s.playing ≠ 0 := by rw [hm.2]; simp
    have hsel : ∀ u : State, u = s ∨ u = playSelect s ∨ u = recordSelect s →
        u.songLength = s.songLength ∧ u.song = s.song := by
      intro u hu
      rcases hu with e | e | e
      · rw [e]; exact ⟨rfl, rfl⟩
      · rw [e]; exact ⟨songLength_playSelect s, song_playSelect s⟩
      · rw [e, recordSelect_playing s hpl]; exact ⟨rfl, rfl⟩
    have hpoll : ∀ adc : Nat → Nat, (tickPoll adc s).1.songLength = s.songLength ∧
        (tickPoll adc s).1.song = s.song := by
      intro adc
      rcases tickPoll_cases adc s with e | e <;> rw [e]
      · exact ⟨rfl, rfl⟩
      · exact sampleTick_playing_song adc s hm
    cases op with
    | recordSelect =>
      simp [Op.apply] at hop
      exact hsel s1 (Or.inr (Or.inr hop.symm))
    | playSelect =>
      simp [Op.apply] at hop
      exact hsel s1 (Or.inr (Or.inl hop.symm))
    | sampleTick adc =>
      simp [Op.apply] at hop
      rw [← hop]
      exact sampleTick_playing_song adc s hm
    | tickPoll adc =>
      simp [Op.apply] at hop
      rw [← hop]
      exact hpoll adc
    | livePassthrough adc =>
      simp [Op.apply] at hop
      rw [← hop, songLength_livePassthrough]
      refine ⟨rfl, ?_⟩
      unfold livePassthrough
      rw [if_neg hpl]
    | stopPoll pind =>
      simp [Op.apply] at hop
      rw [← hop]
      exact hsel _ (stopPoll_cases pind s)
    | mainIter adcT adcL pind =>
      simp [Op.apply, mainIter] at hop
      rw [← hop]
      obtain ⟨-, k2, k3, -⟩ := afterTick_keeps adcL pind (tickPoll adcT s).1
      obtain ⟨p1, p2⟩ := hpoll adcT
      exact ⟨k3.trans p1, k2.trans p2⟩
    | int0 pind fuel =>
      rcases INT0_vect_cases pind fuel s s1 hop with e | e
      · exact hsel s1 (Or.inl e)
      · exact hsel s1 (Or.inr (Or.inl e))
    | int1 pind fuel =>
      rcases INT1_vect_cases pind fuel s s1 hop with e | e
      · exact hsel s1 (Or.inl e)
      · exact hsel s1 (Or.inr (Or.inr e))
    | timerOvf =>
      simp [Op.apply] at hop
      rw [← hop]
      exact ⟨rfl, rfl⟩

theorem no_stale_reads_witness :
    Reachable (playbackStart (fun _ => key1Only) 1 (initSystem resetState)) ∧
    Access.songRead 0 ∈
      (sampleTick key1Only (playbackStart (fun _ => key1Only) 1 (initSystem resetState))).2 ∧
    isPlaying playingAtEnd ∧
    Op.apply (Op.sampleTick key1Only) playingAtEnd =
      some (sampleTick key1Only playingAtEnd).1 ∧
    ((0 : Nat) = (playbackStart (fun _ => key1Only) 1 (initSystem resetState)).playCounter ∧
      (playbackStart (fun _ => key1Only) 1 (initSystem resetState)).playCounter <
        (playbackStart (fun _ => key1Only) 1 (initSystem resetState)).songLength ∧
      (playbackStart (fun _ => key1Only) 1 (initSystem resetState)).songLength ≤ 1400) ∧
    ((sampleTick key1Only playingAtEnd).1.songLength = playingAtEnd.songLength ∧
      (sampleTick key1Only playingAtEnd).1.song = playingAtEnd.song) := by
  have hreach : Reachable (playbackStart (fun _ => key1Only) 1 (initSystem resetState)) := by
    have h0 := Reachable.init resetState
    have h1 := Reachable.step Op.recordSelect _ _ h0 rfl
    have h2 := Reachable.step (Op.sampleTick key1Only) _ _ h1 rfl
    have h3 := Reachable.step Op.recordSelect _ _ h2 rfl
    exact Reachable.step Op.playSelect _ _ h3 rfl
  have hread : Access.songRead 0 ∈
      (sampleTick key1Only
        (playbackStart (fun _ => key1Only) 1 (initSystem resetState))).2 := by decide
  exact ⟨hreach, hread, by decide, rfl,
    (no_stale_reads (playbackStart (fun _ => key1Only) 1 (initSystem resetState))).1 hreach
      key1Only 0 hread,
    (no_stale_reads playingAtEnd).2 (by decide) (Op.sampleTick key1Only) _ rfl⟩

/-! ## Scenario B -/

theorem stopPoll_idle (pind : Nat) (s : State) (h : isIdle s) : stopPoll pind s = s := by
  have hp : ¬ s.playing ≠ 0 := by rw [h.2]; simp
  have hr : ¬ s.recording ≠ 0 := by rw [h.1]; simp
  unfold stopPoll
  simp only [if_neg hp, if_neg hr, ite_self]

theorem stopPoll_inactive (pind : Nat) (s : State) (h : pind &&& (1 <<< PORTD4) = 0) :
    stopPoll pind s = s := by
  unfold stopPoll
  rw [if_neg (by rw [h]; simp)]

theorem mainIter_playing_quiet (adcT adcL : Nat → Nat) (pind : Nat) (u : State)
    (hp : u.playing ≠ 0) (ht : u.timer ≠ 2) (hs : pind &&& (1 <<< PORTD4) = 0) :
    mainIter adcT adcL pind u = (u, []) := by
  unfold mainIter
  simp only
  rw [tickPoll_not_two adcT u ht]
  have hl : livePassthrough adcL u = (u, []) := by
    unfold livePassthrough
    rw [if_neg hp]
  simp only [hl, stopPoll_inactive pind u hs, List.append_nil]

theorem mainIter_empty_stop (adcT adcL : Nat → Nat) (pind : Nat) (u : State)
    (hm : isPlaying u) (hl : u.songLength = 0) (ht : u.timer = 2) :
    isIdle (mainIter adcT adcL pind u).1 ∧
    (mainIter adcT adcL pind u).1.PORTC = u.PORTC &&& 0xF7 ∧
    (mainIter adcT adcL pind u).1.TCCR1B = 0 := by
  have hpl : u.playing ≠ 0 := by rw [hm.2]; simp
  have e1 : (tickPoll adcT u).1 =
      { u with timer := 0, playing := 0, PORTC := u.PORTC &&& 0xF7, TCCR1B := 0 } := by
    rw [tickPoll_at_two adcT u ht, sampleTick_play_empty adcT u hm.1 hpl hl,
      playSelect_playing { u with timer := 0 } hm.1 hpl]
  have key : ∀ v : State, isIdle v →
      isIdle (stopPoll pind (livePassthrough adcL v).1) ∧
      (stopPoll pind (livePassthrough adcL v).1).PORTC = v.PORTC ∧
      (stopPoll pind (livePassthrough adcL v).1).TCCR1B = v.TCCR1B := by
    intro v hv
    have e2 := livePassthrough_port adcL v hv.2
    have hw : isIdle (livePassthrough adcL v).1 := by rw [e2]; exact hv
    rw [stopPoll_idle pind _ hw, e2]
    exact ⟨hv, rfl, rfl⟩
  obtain ⟨k1, k2, k3⟩ := key (tickPoll adcT u).1 (by rw [e1]; exact ⟨hm.1, rfl⟩)
  unfold mainIter
  simp only
  refine ⟨k1, ?_, ?_⟩
  · rw [k2, e1]
  · rw [k3, e1]

/-- C20, the claim as stated fails: from the Idle state after initSystem,
whose song is empty, the play-edge handler returns in mode Playing with the
play indicator bit (PORTC bit 3) set, and a foreground iteration run next, and
one run after a timer overflow, finds playing set (it skips the passthrough
although key1 is pressed, and changes nothing), with the indicator still
set. -/
theorem scenarioB_indicator_counterexample :
    isIdle (initSystem resetState) ∧ (initSystem resetState).songLength = 0 ∧
    INT0_vect playPressed 1 (initSystem resetState) = some playingState ∧
    isPlaying playingState ∧ playingState.PORTC.testBit 3 = true ∧
    mainIter key1Only key1Only 0x08 playingState = (playingState, []) ∧
    isPlaying (TIMER1_OVF_vect playingState) ∧
    (TIMER1_OVF_vect playingState).PORTC.testBit 3 = true ∧
    mainIter key1Only key1Only 0x08 (TIMER1_OVF_vect playingState) =
      (TIMER1_OVF_vect playingState, []) := by
  refine ⟨by decide, by decide, ?_, by decide, by decide, ?_, by decide, by decide, ?_⟩
  · exact INT0_vect_low playPressed 1 _ (le_refl _) (by decide)
  · exact mainIter_playing_quiet _ _ _ _ (by decide) (by decide) (by decide)
  · exact mainIter_playing_quiet _ _ _ _ (by decide) (by decide) (by decide)

/-- C20 (Scenario B indicator, amended): starting from Idle with
songLength == 0, a PlayEdge makes the mode Playing with the play indicator
bit (PORTC bit 3) set and the timer enabled; a timer overflow keeps the mode
Playing and the indicator set, and a foreground iteration that polls
TickCounter at a value other than 2 with the stop line inactive observes
Playing, skips the passthrough and changes nothing; the first foreground
iteration that polls TickCounter == 2 with the song still empty returns the
mode to Idle with the play indicator bit cleared and the timer disabled. -/
theorem scenarioB_stop_at_tick (s : State) (hs : isIdle s) (hl : s.songLength = 0) :
    isPlaying (playSelect s) ∧ (playSelect s).PORTC.testBit 3 = true ∧
    (playSelect s).TCCR1B = 0x02 ∧ (playSelect s).songLength = 0 ∧
    (∀ u : State, isPlaying u → u.PORTC.testBit 3 = true →
      isPlaying (TIMER1_OVF_vect u) ∧ (TIMER1_OVF_vect u).PORTC.testBit 3 = true ∧
      (TIMER1_OVF_vect u).songLength = u.songLength ∧
      ∀ (adcT adcL : Nat → Nat) (pind : Nat), u.timer ≠ 2 → pind &&& (1 <<< PORTD4) = 0 →
        mainIter adcT adcL pind u = (u, [])) ∧
    (∀ u : State, isPlaying u → u.songLength = 0 → u.timer = 2 →
      ∀ (adcT adcL : Nat → Nat) (pind : Nat),
        isIdle (mainIter adcT adcL pind u).1 ∧
        (mainIter adcT adcL pind u).1.PORTC.testBit 3 = false ∧
        (mainIter adcT adcL pind u).1.TCCR1B = 0) := by
  refine ⟨?_, ?_, ?_, ?_, ?_, ?_⟩
  · rw [playSelect_idle s hs.1 hs.2]; exact ⟨hs.1, rfl⟩
  · rw [playSelect_idle s hs.1 hs.2]
    show (s.PORTC ||| 0x08).testBit 3 = true
    rw [Nat.testBit_or, ledMaskBits.2.2.1, Bool.or_true]
  · rw [playSelect_idle s hs.1 hs.2]
  · rw [songLength_playSelect]; exact hl
  · intro u hm hb
    refine ⟨hm, hb, rfl, ?_⟩
    intro adcT adcL pind ht hp
    exact mainIter_playing_quiet adcT adcL pind u (by rw [hm.2]; simp) ht hp
  · intro u hm hz ht adcT adcL pind
    obtain ⟨g1, g2, g3⟩ := mainIter_empty_stop adcT adcL pind u hm hz ht
    refine ⟨g1, ?_, g3⟩
    rw [g2, Nat.testBit_and, ledMaskBits.2.2.2.2.2.2.1, Bool.and_false]

theorem scenarioB_stop_at_tick_witness :
    isIdle (initSystem resetState) ∧ (initSystem resetState).songLength = 0 ∧
    isPlaying playingState ∧ playingState.PORTC.testBit 3 = true ∧
    playingState.timer ≠ 2 ∧ (0x08 : Nat) &&& (1 <<< PORTD4) = 0 ∧
    isPlaying (TIMER1_OVF_vect (TIMER1_OVF_vect playingState)) ∧
    (TIMER1_OVF_vect (TIMER1_OVF_vect playingState)).songLength = 0 ∧
    (TIMER1_OVF_vect (TIMER1_OVF_vect playingState)).timer = 2 ∧
    (isPlaying (playSelect (initSystem resetState)) ∧
      (playSelect (initSystem resetState)).PORTC.testBit 3 = true) ∧
    mainIter key1Only key1Only 0x08 playingState = (playingState, []) ∧
    isIdle (mainIter (fun _ => 0) (fun _ => 0) 0x08
      (TIMER1_OVF_vect (TIMER1_OVF_vect playingState))).1 :=
  ⟨by decide, by decide, by decide, by decide, by decide, by decide, by decide, by decide,
    by decide,
    ⟨(scenarioB_stop_at_tick (initSystem resetState) (by decide) (by decide)).1,
      (scenarioB_stop_at_tick (initSystem resetState) (by decide) (by decide)).2.1⟩,
    ((scenarioB_stop_at_tick (initSystem resetState) (by decide) (by decide)).2.2.2.2.1
      playingState (by decide) (by decide)).2.2.2 key1Only key1Only 0x08 (by decide)
      (by decide),
    ((scenarioB_stop_at_tick (initSystem resetState) (by decide) (by decide)).2.2.2.2.2
      (TIMER1_OVF_vect (TIMER1_OVF_vect playingState)) (by decide) (by decide) (by decide)
      (fun _ => 0) (fun _ => 0) 0x08).1⟩

/-! ## Runs with preemption -/

/-- C1, evaluation at the failing input: the run raceBothFlags from the entry
of the loop after initSystem is a run of the program (a handler is served only
between two statements of the foreground).  After its first twelve steps the
foreground is Recording and at line 86 of recordSelect, having read playing as
0 at line 85; the record-edge and play-edge handlers served there leave
recording 0 and playing 1; the foreground then takes the start branch of
recordSelect, and the run ends at the loop head with recording == 1 and
playing == 1. -/
theorem mutual_exclusion_broken_by_preemption :
    (runMicro ([MicroOp.int1 recPressed 1] ++ mainSteps 11 key1Only 0x1C)
        (startConfig resetState)).map
      (fun c => (c.pc, c.s.recording, c.s.playing)) = some (Pc.R86, 1, 0) ∧
    (runMicro ([MicroOp.int1 recPressed 1] ++ mainSteps 11 key1Only 0x1C ++
        [MicroOp.int1 recPressed 1, MicroOp.int0 playPressed 1])
        (startConfig resetState)).map
      (fun c => (c.pc, c.s.recording, c.s.playing)) = some (Pc.R86, 0, 1) ∧
    (runMicro raceBothFlags (startConfig resetState)).map
      (fun c => (c.pc, c.s.recording, c.s.playing)) = some (Pc.L179, 1, 1) ∧
    (∀ c, runMicro raceBothFlags (startConfig resetState) = some c → PReachable c) :=
  ⟨by decide, by decide, by decide,
    fun c h => preachable_runMicro raceBothFlags _ c (PReachable.init resetState) h⟩

/-- C12, evaluation at the failing input: the run raceLedOff is a run of the
program.  After its first fourteen steps the foreground has executed
recording = 0 (line 100) of the stop and is at line 103; the record-edge
handler served there starts a take (recording 1, PORTC bit 2 set); the
foreground then clears PORTC bit 2 (line 103), and the run ends at the loop
head with recording == 1, playing == 0 and PORTC bit 2 clear. -/
theorem indicator_broken_by_preemption :
    (runMicro ([MicroOp.int1 recPressed 1] ++ mainSteps 13 key1Only 0x1C)
        (startConfig resetState)).map
      (fun c => (c.pc, c.s.recording, c.s.playing, c.s.PORTC.testBit 2)) =
        some (Pc.R103, 0, 0, true) ∧
    (runMicro ([MicroOp.int1 recPressed 1] ++ mainSteps 13 key1Only 0x1C ++
        [MicroOp.int1 recPressed 1]) (startConfig resetState)).map
      (fun c => (c.pc, c.s.recording, c.s.playing, c.s.PORTC.testBit 2)) =
        some (Pc.R103, 1, 0, true) ∧
    (runMicro raceLedOff (startConfig resetState)).map
      (fun c => (c.pc, c.s.recording, c.s.playing, c.s.PORTC.testBit 2)) =
        some (Pc.L179, 1, 0, false) ∧
    (∀ c, runMicro raceLedOff (startConfig resetState) = some c → PReachable c) :=
  ⟨by decide, by decide, by decide,
    fun c h => preachable_runMicro raceLedOff _ c (PReachable.init resetState) h⟩

/-- C13, evaluation at the failing input: the run raceTimerOff is a run of the
program.  After its first eight steps the foreground has executed
playing = 0 (line 126) of the stop and is at line 129; the play-edge handler
served there starts playback (playing 1, TCCR1B 2); the foreground then
executes lines 129 and 132, and the run ends at the loop head in mode Playing
(playing == 1, recording == 0) with TCCR1B == 0.  The run raceBothFlags ends
with TCCR1B == 2 in a state that is neither Recording nor Playing nor Idle. -/
theorem timebase_broken_by_preemption :
    (runMicro ([MicroOp.int0 playPressed 1] ++ mainSteps 7 key1Only 0x1C)
        (startConfig resetState)).map
      (fun c => (c.pc, c.s.recording, c.s.playing, c.s.TCCR1B)) = some (Pc.P129, 0, 0, 2) ∧
    (runMicro ([MicroOp.int0 playPressed 1] ++ mainSteps 7 key1Only 0x1C ++
        [MicroOp.int0 playPressed 1]) (startConfig resetState)).map
      (fun c => (c.pc, c.s.recording, c.s.playing, c.s.TCCR1B)) = some (Pc.P129, 0, 1, 2) ∧
    (runMicro raceTimerOff (startConfig resetState)).map
      (fun c => (c.pc, c.s.recording, c.s.playing, c.s.TCCR1B)) = some (Pc.L179, 0, 1, 0) ∧
    (runMicro raceTimerOff (startConfig resetState)).map
      (fun c => decide (isPlaying c.s)) = some true ∧
    (runMicro raceBothFlags (startConfig resetState)).map
      (fun c => (c.s.recording, c.s.playing, c.s.TCCR1B)) = some (1, 1, 2) ∧
    (∀ c, runMicro raceTimerOff (startConfig resetState) = some c → PReachable c) :=
  ⟨by decide, by decide, by decide, by decide, by decide,
    fun c h => preachable_runMicro raceTimerOff _ c (PReachable.init resetState) h⟩

/-- C19, evaluation at the failing input: the run raceStaleRead is a run of
the program.  Its prefix playbackTickAt210 ends inside a playback tick, past
the test of line 205, with playCounter 0 and songLength 1; the play-edge and
record-edge handlers served there leave recording 1, playing 0 and
songLength 0; the next statement of the foreground is line 210, which reads
song[0] while songLength == 0, an entry at the current length. -/
theorem stale_read_by_preemption :
    (runMicro playbackTickAt210 (startConfig resetState)).map
      (fun c => (c.pc, c.s.recording, c.s.playing, c.s.songLength, c.s.playCounter)) =
        some (Pc.L210, 0, 1, 1, 0) ∧
    (runMicro raceStaleRead (startConfig resetState)).map
      (fun c => (c.pc, c.s.recording, c.s.playing, c.s.songLength, c.s.playCounter)) =
        some (Pc.L210, 1, 0, 0, 0) ∧
    (runMicro raceStaleRead (startConfig resetState)).map
      (fun c => (mainStep key1Only 0x0C c).2) =
        some [Access.songRead 0, Access.portbWrite 1] ∧
    (∀ c, runMicro raceStaleRead (startConfig resetState) = some c → PReachable c) :=
  ⟨by decide, by decide, by decide,
    fun c h => preachable_runMicro raceStaleRead _ c (PReachable.init resetState) h⟩

/-! ## Sections as uninterrupted runs of the statements -/

theorem runMain_add (adc : Nat → Nat) (pind : Nat) (m n : Nat) (c : Config) :
    runMain adc pind (m + n) c = runMain adc pind n (runMain adc pind m c) := by
  induction m generalizing c with
  | zero => simp [runMain]
  | succ m ih =>
    rw [Nat.succ_add]
    simp only [runMain]
    exact ih _

/-- A call of recordSelect by the foreground, run without a handler in
between, is `recordSelect`. -/
theorem recordSelect_sim (adc : Nat → Nat) (pind : Nat) (s : State) (row : Nat) (ret : Ret) :
    ∃ n, 0 < n ∧ runMain adc pind n { s := s, pc := Pc.R85, row := row, ret := ret } =
      { s := recordSelect s, pc := ret.pc, row := row, ret := ret } := by
  by_cases hp : s.playing ≠ 0
  · refine ⟨1, by decide, ?_⟩
    simp [runMain, mainStep, hp, recordSelect]
  · by_cases hr : s.recording = 0
    · refine ⟨6, by decide, ?_⟩
      simp [runMain, mainStep, hp, hr, recordSelect]
    · refine ⟨5, by decide, ?_⟩
      simp [runMain, mainStep, hp, hr, recordSelect]

/-- A call of playSelect by the foreground, run without a handler in between,
is `playSelect`. -/
theorem playSelect_sim (adc : Nat → Nat) (pind : Nat) (s : State) (row : Nat) (ret : Ret) :
    ∃ n, 0 < n ∧ runMain adc pind n { s := s, pc := Pc.P112, row := row, ret := ret } =
      { s := playSelect s, pc := ret.pc, row := row, ret := ret } := by
  by_cases hr : s.recording ≠ 0
  · refine ⟨1, by decide, ?_⟩
    simp [runMain, mainStep, hr, playSelect]
  · by_cases hp : s.playing = 0
    · refine ⟨6, by decide, ?_⟩
      simp [runMain, mainStep, hp, hr, playSelect]
    · refine ⟨5, by decide, ?_⟩
      simp [runMain, mainStep, hp, hr, playSelect]

/-- The tick section of a foreground iteration (lines 179-218), run without a
handler in between, is `tickPoll`. -/
theorem tickPoll_sim (adc : Nat → Nat) (pind : Nat) (s : State) (row : Nat) (ret : Ret) :
    ∃ n row1 ret1, 0 < n ∧
      runMain adc pind n { s := s, pc := Pc.L179, row := row, ret := ret } =
        { s := (tickPoll adc s).1, pc := Pc.L219, row := row1, ret := ret1 } := by
  by_cases ht : s.timer = 2
  · by_cases hr : s.recording ≠ 0
    · by_cases hf : s.songLength = MAX_SONG_LENGTH
      · obtain ⟨n, -, hn⟩ := recordSelect_sim adc pind { s with timer := 0 } row Ret.toPassthrough
        refine ⟨4 + n, row, Ret.toPassthrough, by omega, ?_⟩
        rw [runMain_add]
        have h4 : runMain adc pind 4 { s := s, pc := Pc.L179, row := row, ret := ret } =
            { s := { s with timer := 0 }, pc := Pc.R85, row := row, ret := Ret.toPassthrough } := by
          simp [runMain, mainStep, ht, hr, hf]
        rw [h4, hn, tickPoll_at_two adc s ht, sampleTick_record_full adc s hr hf]
        rfl
      · refine ⟨12, scanRow adc, ret, by decide, ?_⟩
        rw [tickPoll_at_two adc s ht, sampleTick_record adc s hr hf]
        simp [runMain, mainStep, ht, hr, hf, scanRow]
    · have hr0 : s.recording = 0 := by simpa using hr
      by_cases hp : s.playing ≠ 0
      · by_cases hz : s.songLength = 0
        · obtain ⟨n, -, hn⟩ := playSelect_sim adc pind { s with timer := 0 } row Ret.toPassthrough
          refine ⟨5 + n, row, Ret.toPassthrough, by omega, ?_⟩
          rw [runMain_add]
          have h5 : runMain adc pind 5 { s := s, pc := Pc.L179, row := row, ret := ret } =
              { s := { s with timer := 0 }, pc := Pc.P112, row := row,
                ret := Ret.toPassthrough } := by
            simp [runMain, mainStep, ht, hr0, hp, hz]
          rw [h5, hn, tickPoll_at_two adc s ht, sampleTick_play_empty adc s hr0 hp hz]
          rfl
        · by_cases hw : s.playCounter = s.songLength
          · refine ⟨7, row, ret, by decide, ?_⟩
            rw [tickPoll_at_two adc s ht, sampleTick_play_wrap adc s hr0 hp hz hw]
            simp [runMain, mainStep, ht, hr0, hp, hz, hw]
          · refine ⟨12, row, ret, by decide, ?_⟩
            rw [tickPoll_at_two adc s ht, (sampleTick_play_out adc s hr0 hp hz hw).1]
            simp [runMain, mainStep, ht, hr0, hp, hz, hw, playOut]
      · have hp0 : s.playing = 0 := by simpa using hp
        refine ⟨4, row, ret, by decide, ?_⟩
        rw [tickPoll_at_two adc s ht, sampleTick_idle adc s hr0 hp0]
        simp [runMain, mainStep, ht, hr0, hp0]
  · refine ⟨1, row, ret, by decide, ?_⟩
    rw [tickPoll_not_two adc s ht]
    simp [runMain, mainStep, ht]

/-- The passthrough section (lines 219-226), run without a handler in
between, is `livePassthrough`. -/
theorem livePassthrough_sim (adc : Nat → Nat) (pind : Nat) (s : State) (row : Nat)
    (ret : Ret) :
    ∃ n, 0 < n ∧ runMain adc pind n { s := s, pc := Pc.L219, row := row, ret := ret } =
      { s := (livePassthrough adc s).1, pc := Pc.L227, row := row, ret := ret } := by
  by_cases hp : s.playing = 0
  · refine ⟨6, by decide, ?_⟩
    simp [runMain, mainStep, hp, livePassthrough]
  · refine ⟨1, by decide, ?_⟩
    simp [runMain, mainStep, hp, livePassthrough]

/-- The stop poll (lines 227-234), run without a handler in between, is
`stopPoll`. -/
theorem stopPoll_sim (adc : Nat → Nat) (pind : Nat) (s : State) (row : Nat) (ret : Ret) :
    ∃ n ret1, 0 < n ∧ runMain adc pind n { s := s, pc := Pc.L227, row := row, ret := ret } =
      { s := stopPoll pind s, pc := Pc.L179, row := row, ret := ret1 } := by
  by_cases hs : pind &&& (1 <<< PORTD4) ≠ 0
  · by_cases hp : s.playing ≠ 0
    · obtain ⟨n, -, hn⟩ := playSelect_sim adc pind s row Ret.toLoopHead
      refine ⟨2 + n, Ret.toLoopHead, by omega, ?_⟩
      rw [runMain_add]
      have h2 : runMain adc pind 2 { s := s, pc := Pc.L227, row := row, ret := ret } =
          { s := s, pc := Pc.P112, row := row, ret := Ret.toLoopHead } := by
        simp [runMain, mainStep, hs, hp]
      rw [h2, hn]
      simp [stopPoll, hs, hp, Ret.pc]
    · by_cases hr : s.recording ≠ 0
      · obtain ⟨n, -, hn⟩ := recordSelect_sim adc pind s row Ret.toLoopHead
        refine ⟨3 + n, Ret.toLoopHead, by omega, ?_⟩
        rw [runMain_add]
        have h3 : runMain adc pind 3 { s := s, pc := Pc.L227, row := row, ret := ret } =
            { s := s, pc := Pc.R85, row := row, ret := Ret.toLoopHead } := by
          simp [runMain, mainStep, hs, hp, hr]
        rw [h3, hn]
        simp [stopPoll, hs, hp, hr, Ret.pc]
      · refine ⟨3, ret, by decide, ?_⟩
        simp [runMain, mainStep, hs, hp, hr, stopPoll]
  · refine ⟨1, ret, by decide, ?_⟩
    simp [runMain, mainStep, hs, stopPoll]

/-- A whole foreground iteration, run without a handler in between, is
`mainIter`: the tick section with conversions `adcT`, the passthrough with
`adcL`, the stop poll with `pind`. -/
theorem mainIter_sim (adcT adcL : Nat → Nat) (pind : Nat) (s : State) (row : Nat)
    (ret : Ret) :
    ∃ n1 n2 n3 row1 ret1,
      runMain adcL pind n3 (runMain adcL pind n2
        (runMain adcT pind n1 { s := s, pc := Pc.L179, row := row, ret := ret })) =
      { s := (mainIter adcT adcL pind s).1, pc := Pc.L179, row := row1, ret := ret1 } := by
  obtain ⟨n1, row1, ret1, -, h1⟩ := tickPoll_sim adcT pind s row ret
  obtain ⟨n2, -, h2⟩ := livePassthrough_sim adcL pind (tickPoll adcT s).1 row1 ret1
  obtain ⟨n3, ret3, -, h3⟩ :=
    stopPoll_sim adcL pind (livePassthrough adcL (tickPoll adcT s).1).1 row1 ret1
  refine ⟨n1, n2, n3, row1, ret3, ?_⟩
  rw [h1, h2, h3]
  rfl

theorem preachable_runMain (adc : Nat → Nat) (pind : Nat) (n : Nat) (c : Config)
    (h : PReachable c) : PReachable (runMain adc pind n c) := by
  induction n generalizing c with
  | zero => exact h
  | succ n ih =>
    simp only [runMain]
    exact ih _ (PReachable.step (MicroOp.main adc pind) c _ h rfl)

/-- The runs in which handlers are served only at the loop head are runs of
the program: from a configuration at the loop head that the program reaches,
a whole iteration run to completion, an edge handler and the overflow handler
lead to configurations at the loop head that the program reaches. -/
theorem preachable_atomic_steps (s : State) (row : Nat) (ret : Ret)
    (h : PReachable { s := s, pc := Pc.L179, row := row, ret := ret }) :
    (∀ (adcT adcL : Nat → Nat) (pind : Nat), ∃ row1 ret1,
      PReachable
        { s := (mainIter adcT adcL pind s).1, pc := Pc.L179, row := row1, ret := ret1 }) ∧
    (∀ (pind : Nat → Nat) (fuel : Nat) (s1 : State), INT0_vect pind fuel s = some s1 →
      PReachable { s := s1, pc := Pc.L179, row := row, ret := ret }) ∧
    (∀ (pind : Nat → Nat) (fuel : Nat) (s1 : State), INT1_vect pind fuel s = some s1 →
      PReachable { s := s1, pc := Pc.L179, row := row, ret := ret }) ∧
    PReachable { s := TIMER1_OVF_vect s, pc := Pc.L179, row := row, ret := ret } := by
  refine ⟨?_, ?_, ?_, ?_⟩
  · intro adcT adcL pind
    obtain ⟨n1, n2, n3, row1, ret1, e⟩ := mainIter_sim adcT adcL pind s row ret
    refine ⟨row1, ret1, ?_⟩
    rw [← e]
    exact preachable_runMain _ _ _ _ (preachable_runMain _ _ _ _
      (preachable_runMain _ _ _ _ h))
  · intro pind fuel s1 hs
    refine PReachable.step (MicroOp.int0 pind fuel) _ _ h ?_
    simp [MicroOp.apply, hs]
  · intro pind fuel s1 hs
    refine PReachable.step (MicroOp.int1 pind fuel) _ _ h ?_
    simp [MicroOp.apply, hs]
  · exact PReachable.step MicroOp.ovf _ _ h rfl

/-! ## The capacity bound with preemption -/

theorem songLength_recordSelect_cases (s : State) :
    (recordSelect s).songLength = s.songLength ∨ (recordSelect s).songLength = 0 := by
  unfold recordSelect
  split_ifs
  · exact Or.inl rfl
  · exact Or.inr rfl
  · exact Or.inl rfl

theorem lengthOk_of_state (c : Config) (s1 : State) (h : LengthOk c)
    (hs : s1.songLength = c.s.songLength ∨ s1.songLength = 0) : LengthOk { c with s := s1 } := by
  obtain ⟨h1, h2⟩ := h
  unfold LengthOk MAX_SONG_LENGTH at *
  simp only
  rcases hs with e | e
  · rw [e]; exact ⟨h1, h2⟩
  · rw [e]; exact ⟨by omega, fun _ => by omega⟩

theorem lengthOk_mainStep (adc : Nat → Nat) (pind : Nat) (c : Config) (h : LengthOk c) :
    LengthOk (mainStep adc pind c).1 := by
  obtain ⟨s, pc, row, ret⟩ := c
  obtain ⟨h1, h2⟩ := h
  unfold LengthOk MAX_SONG_LENGTH at *
  simp only at h1 h2
  cases ret <;> cases pc <;> simp only [mainStep] <;> (try split_ifs) <;>
    simp_all [inRecordBody, Ret.pc, MAX_SONG_LENGTH] <;> omega

/-- In every configuration the program reaches, a handler being served
between any two statements of the foreground, songLength is at most the
capacity, and it is below the capacity where the record branch is about to
write. -/
theorem lengthOk_of_preachable (c : Config) (h : PReachable c) : LengthOk c := by
  induction h with
  | init s0 =>
    unfold LengthOk startConfig initSystem MAX_SONG_LENGTH
    simp [inRecordBody]
  | step op c c1 _ hop ih =>
    cases op with
    | main adc pind =>
      simp [MicroOp.apply] at hop
      rw [← hop]
      exact lengthOk_mainStep adc pind c ih
    | int0 pind fuel =>
      simp only [MicroOp.apply, Option.map_eq_some'] at hop
      obtain ⟨s1, hs1, e⟩ := hop
      rw [← e]
      apply lengthOk_of_state c s1 ih
      rcases INT0_vect_cases pind fuel c.s s1 hs1 with e1 | e1
      · exact Or.inl (by rw [e1])
      · exact Or.inl (by rw [e1, songLength_playSelect])
    | int1 pind fuel =>
      simp only [MicroOp.apply, Option.map_eq_some'] at hop
      obtain ⟨s1, hs1, e⟩ := hop
      rw [← e]
      apply lengthOk_of_state c s1 ih
      rcases INT1_vect_cases pind fuel c.s s1 hs1 with e1 | e1
      · exact Or.inl (by rw [e1])
      · rw [e1]; exact songLength_recordSelect_cases c.s
    | ovf =>
      simp [MicroOp.apply] at hop
      rw [← hop]
      exact lengthOk_of_state c _ ih (Or.inl rfl)

/-- With preemption between statements, every write to the song made by a
statement of the foreground has an index below the capacity. -/
theorem write_in_bounds_preemptive (c : Config) (h : PReachable c) (adc : Nat → Nat)
    (pind i v : Nat) (hw : Access.songWrite i v ∈ (mainStep adc pind c).2) :
    i < MAX_SONG_LENGTH := by
  obtain ⟨-, h2⟩ := lengthOk_of_preachable c h
  obtain ⟨s, pc, row, ret⟩ := c
  cases pc <;> simp only [mainStep] at hw <;> (try split_ifs at hw) <;>
    simp at hw
  obtain ⟨e, -⟩ := hw
  rw [e]
  exact h2 rfl

end SysTeam
